import Mathlib

/-!
# GridFTP plugin: descriptor model of `gridftp_io.cpp` and `gridftp_checksum_module.cpp`

The file-descriptor adapter is embedded as pure functions.  Every call takes the
descriptor state before the call and an `Env` giving the answers of the
protocol layer during that call; it yields the value returned (or the failure
raised), the descriptor state afterwards and the list of operations issued to the
protocol layer, in order.

Cursor arithmetic on the signed `off_t` and `ssize_t` is done in the integers:
signed overflow has no defined meaning in the source. Sums that the source forms
in unsigned arithmetic (`off_t + size_t`) wrap at 64 bits and are read back as the
signed `globus_off_t`, as on LP64. Open flags are the bit pattern of the `int`
argument.
-/

/-! ## Constants of the system headers (Linux values) -/

/-- Access mode "read only" of `<fcntl.h>`. -/
def O_RDONLY : Nat := 0
/-- Access mode "write only" of `<fcntl.h>`. -/
def O_WRONLY : Nat := 1
/-- Access mode "read and write" of `<fcntl.h>`. -/
def O_RDWR : Nat := 2
/-- Mask of the access mode bits of `<fcntl.h>`. -/
def O_ACCMODE : Nat := 3
/-- Creation flag of `<fcntl.h>` (octal 0100). -/
def O_CREAT : Nat := 64

/-- Whence value of `<stdio.h>`: absolute position. -/
def SEEK_SET : Int := 0
/-- Whence value of `<stdio.h>`: relative to the current position. -/
def SEEK_CUR : Int := 1
/-- Whence value of `<stdio.h>`: relative to the end. -/
def SEEK_END : Int := 2

/-- Error code "no such file or directory" of `<errno.h>`. -/
def ENOENT : Nat := 2
/-- Error code "connection reset by peer" of `<errno.h>`. -/
def ECONNRESET : Nat := 104
/-- Error code "invalid argument" of `<errno.h>`. -/
def EINVAL : Nat := 22
/-- Error code "no buffer space available" of `<errno.h>`. -/
def ENOBUFS : Nat := 105
/-- Error code "operation canceled" of `<errno.h>`. -/
def ECANCELED : Nat := 125

/-! ## Data model -/

/-- The scopes (`Glib::Quark`) that tag a failure with the operation raising it. -/
inductive Scope
  | OPEN
  | READ
  | INTERNAL_PREAD
  | WRITE
  | INTERNAL_PWRITE
  | LSEEK
  | CLOSE
  | CHECKSUM
  deriving DecidableEq, Repr

/-- How a call can fail: a `Gfal::CoreException` with its scope and code, or the
dereference of a NULL stream pointer (which the source does not guard in
`gridftp_rw_commit_put`). -/
inductive Failure
  | exception (scope : Scope) (code : Nat)
  | null_stream
  deriving DecidableEq, Repr

/-- Which stream state a transfer runs on: the descriptor's own one, or the
stack-local one of a positioned sub-operation. -/
inductive StreamRef
  | main
  | scratch
  deriving DecidableEq, Repr

/-- Operations issued to the protocol layer and to the hosting framework. -/
inductive Event
  /-- construction of a `GridFTPSessionHandler` bound to the URL -/
  | session_new (url : String)
  /-- the call `this->exists(url)` -/
  | exists_check (url : String)
  /-- the call `globus_ftp_client_get` -/
  | client_get (url : String)
  /-- the call `globus_ftp_client_put` -/
  | client_put (url : String)
  /-- the call `globus_ftp_client_partial_get` with its start and end offsets -/
  | client_partial_get (url : String) (start_offset end_offset : Int)
  /-- the call `globus_ftp_client_partial_put` with its start and end offsets -/
  | client_partial_put (url : String) (start_offset end_offset : Int)
  /-- the call `gridftp_read_stream` for `count` bytes -/
  | read_stream (ref : StreamRef) (count : Nat)
  /-- the call `gridftp_write_stream` for `count` bytes with its end-of-data mark -/
  | write_stream (ref : StreamRef) (count : Nat) (eof : Bool)
  /-- the call `globus_ftp_client_abort` -/
  | client_abort
  /-- the call `wait` on a request state -/
  | wait (scope : Scope)
  /-- the call `gfal_file_handle_delete` -/
  | handle_delete
  /-- the statement `delete stream` on a stream that is present -/
  | delete_stream
  /-- the statement `delete request` -/
  | delete_request
  /-- the statement `delete handler` -/
  | delete_handler
  /-- the call `gfal_globus_ftp_take_handle` for the host of the URL -/
  | take_handle (url : String)
  /-- the call `req->start()` -/
  | req_start
  /-- registration of the `GridFTPOperationCanceler` -/
  | canceler_register
  /-- the call `globus_ftp_client_cksm` -/
  | client_cksm (url : String) (start_offset length : Int) (check_type : String)
  /-- the call `req->wait_callback` -/
  | wait_callback
  deriving DecidableEq, Repr

/-- Answers of the protocol layer during one call of the adapter. -/
structure Env where
  /-- what `this->exists(url)` returns, or the failure it raises -/
  file_exists : Except Failure Bool
  /-- the `globus_result_t` of the operation started: `none` is `GLOBUS_SUCCESS`,
  `some c` a failure that `gfal_globus_check_result` raises with code `c` -/
  start_result : Option Nat
  /-- the stream transfer: bytes moved and whether end of data was signaled, or
  the code of its failure -/
  transfer : Except Nat (Nat × Bool)
  /-- the completion signaled for a request still pending when waited for:
  `none` is success, `some c` a failure with code `c` -/
  completion : Option Nat

/-- Session handle: the connection bound to the endpoint of one URL. -/
structure GridFTPSessionHandler where
  url : String
  deriving DecidableEq, Repr

/-- Modelled from the spec: the Request State declared in `gridftp_wrapper.h`
(not under src/), "completion flag `done`, completion error (nullable)". -/
structure GridFTPRequestState where
  done : Bool
  error : Option Nat
  deriving DecidableEq, Repr

/-- Modelled from the spec: the Stream State declared in `gridftp_wrapper.h`
(not under src/), "current byte offset, end-of-stream flag". -/
structure GridFTPStreamState where
  offset : Int
  eof : Bool
  deriving DecidableEq, Repr

/-- The descriptor `struct GridFTPFileDesc` (the lock is left out: calls are
taken one at a time). `stream = none` is the NULL pointer left by `reset`. -/
structure GridFTPFileDesc where
  handler : GridFTPSessionHandler
  request : GridFTPRequestState
  stream : Option GridFTPStreamState
  open_flags : Nat
  current_offset : Int
  url : String
  deriving DecidableEq, Repr

/-- Result of a call on a descriptor: value or failure, the descriptor
afterwards, and the operations issued. -/
structure Call (α : Type) where
  ret : Except Failure α
  desc : GridFTPFileDesc
  trace : List Event

/-- Result of a call that has no descriptor afterwards to speak of. -/
structure Outcome (α : Type) where
  ret : Except Failure α
  trace : List Event

/-- Result of `close`: `desc = none` once the descriptor has been deleted,
`some d` while it is still allocated. -/
structure CloseResult where
  ret : Except Failure Int
  desc : Option GridFTPFileDesc
  trace : List Event

/-! ## Collaborators declared outside src/ -/

/-- Modelled from the spec: constructor of the Request State (not under src/):
a request starts pending, "issued, not yet signaled". -/
def GridFTPRequestState.new : GridFTPRequestState :=
  { done := false, error := none }

/-- Modelled from the spec: constructor of the Stream State (not under src/):
"stream offset = 0" immediately after open, end-of-stream flag not set. -/
def GridFTPStreamState.new : GridFTPStreamState :=
  { offset := 0, eof := false }

/-- Modelled from the spec: `GridFTPRequestState::wait` (not under src/): "blocks
the calling thread until the transition to done, then either returns normally or
fails with the carried condition". A pending request takes the completion the
environment signals. -/
def GridFTPRequestState.wait (env : Env) (scope : Scope) (r : GridFTPRequestState) :
    Except Failure Unit × GridFTPRequestState :=
  let r1 : GridFTPRequestState := if r.done then r else { done := true, error := env.completion }
  match r1.error with
  | none => (.ok (), r1)
  | some c => (.error (.exception scope c), r1)

/-- Modelled from the spec: `gridftp_read_stream` (not under src/): "Each
successful stream read/write advances the offset by the transferred byte count;
the end-of-stream flag is set ... by the protocol layer signaling no more data
(read side)". -/
def gridftp_read_stream (env : Env) (scope : Scope) (stream : GridFTPStreamState)
    (_s_read : Nat) : Except Failure (Nat × GridFTPStreamState) :=
  match env.transfer with
  | .error c => .error (.exception scope c)
  | .ok (n, eof) => .ok (n, { offset := stream.offset + n, eof := stream.eof || eof })

/-- Modelled from the spec: `gridftp_write_stream` (not under src/): "Each
successful stream read/write advances the offset by the transferred byte count;
the end-of-stream flag is set ... by the caller explicitly marking a write as
terminal (write side)". -/
def gridftp_write_stream (env : Env) (scope : Scope) (stream : GridFTPStreamState)
    (_s_write : Nat) (eof : Bool) : Except Failure (Nat × GridFTPStreamState) :=
  match env.transfer with
  | .error c => .error (.exception scope c)
  | .ok (n, _) => .ok (n, { offset := stream.offset + n, eof := stream.eof || eof })

/-- The check `gfal_globus_check_result(scope, res)`: raises when the result is
not `GLOBUS_SUCCESS`. -/
def gfal_globus_check_result (scope : Scope) (res : Option Nat) : Except Failure Unit :=
  match res with
  | none => .ok ()
  | some c => .error (.exception scope c)

/-- Conversion of a 64-bit unsigned value to the signed `globus_off_t`: the value
is taken modulo `2 ^ 64` and read in two's complement. -/
def to_globus_off_t (u : Int) : Int :=
  if u % 2 ^ 64 < 2 ^ 63 then u % 2 ^ 64 else u % 2 ^ 64 - 2 ^ 64

/-- The expression `offset + s_buff` of the positioned sub-operations: `off_t`
plus `size_t` is added as unsigned 64-bit values and passed as `globus_off_t`. -/
def range_end (offset : Int) (s_buff : Nat) : Int :=
  to_globus_off_t (offset + s_buff)

/-! ## `gridftp_io.cpp` -/

/-- The method `GridFTPFileDesc::is_not_seeked`. -/
def GridFTPFileDesc.is_not_seeked (d : GridFTPFileDesc) : Bool :=
  match d.stream with
  | none => false
  | some s => d.current_offset == s.offset

/-- The method `GridFTPFileDesc::reset`. -/
def GridFTPFileDesc.reset (d : GridFTPFileDesc) : GridFTPFileDesc :=
  { d with stream := none }

/-- The destructor `~GridFTPFileDesc`: stream, then request, then session. -/
def GridFTPFileDesc.destroy (d : GridFTPFileDesc) : List Event :=
  (if d.stream.isSome then [Event.delete_stream] else []) ++
    [Event.delete_request, Event.delete_handler]

/-- The function `is_read_only`. -/
def is_read_only (open_flags : Nat) : Bool :=
  (open_flags &&& O_RDONLY != 0) || ((open_flags &&& (O_WRONLY ||| O_RDWR)) == 0)

/-- The function `is_write_only`. -/
def is_write_only (open_flags : Nat) : Bool :=
  open_flags &&& (O_WRONLY ||| O_CREAT) != 0

/-- The function `gridftp_rw_commit_put`. -/
def gridftp_rw_commit_put (env : Env) (desc : GridFTPFileDesc) : Call Int :=
  if is_write_only desc.open_flags then
    match desc.stream with
    | none => { ret := .error .null_stream, desc := desc, trace := [] }
    | some s =>
      match gridftp_write_stream env .WRITE s 0 true with
      | .error e =>
        { ret := .error e, desc := desc, trace := [Event.write_stream .main 0 true] }
      | .ok (_, s1) =>
        { ret := .ok 0, desc := { desc with stream := some s1 },
          trace := [Event.write_stream .main 0 true] }
  else
    { ret := .ok 0, desc := desc, trace := [] }

/-- The function `gridftp_rw_internal_pread`: a read on a session, request and
stream of its own. -/
def gridftp_rw_internal_pread (env : Env) (desc : GridFTPFileDesc) (s_buff : Nat)
    (offset : Int) : Call Nat :=
  let request_state := GridFTPRequestState.new
  let stream_state := GridFTPStreamState.new
  let t0 := [Event.session_new desc.url,
             Event.client_partial_get desc.url offset (range_end offset s_buff)]
  match gfal_globus_check_result .INTERNAL_PREAD env.start_result with
  | .error e => { ret := .error e, desc := desc, trace := t0 }
  | .ok _ =>
    let t1 := t0 ++ [Event.read_stream .scratch s_buff]
    match gridftp_read_stream env .INTERNAL_PREAD stream_state s_buff with
    | .error e => { ret := .error e, desc := desc, trace := t1 }
    | .ok (r_size, _) =>
      let t2 := t1 ++ [Event.wait .INTERNAL_PREAD]
      match (request_state.wait env .INTERNAL_PREAD).1 with
      | .error e => { ret := .error e, desc := desc, trace := t2 }
      | .ok _ => { ret := .ok r_size, desc := desc, trace := t2 }

/-- The function `gridftp_rw_internal_pwrite`: a write on a session, request and
stream of its own. -/
def gridftp_rw_internal_pwrite (env : Env) (desc : GridFTPFileDesc) (s_buff : Nat)
    (offset : Int) : Call Nat :=
  let request_state := GridFTPRequestState.new
  let stream := GridFTPStreamState.new
  let t0 := [Event.session_new desc.url,
             Event.client_partial_put desc.url offset (range_end offset s_buff)]
  match gfal_globus_check_result .INTERNAL_PWRITE env.start_result with
  | .error e => { ret := .error e, desc := desc, trace := t0 }
  | .ok _ =>
    let t1 := t0 ++ [Event.write_stream .scratch s_buff false]
    match gridftp_write_stream env .INTERNAL_PWRITE stream s_buff false with
    | .error e => { ret := .error e, desc := desc, trace := t1 }
    | .ok (r_size, _) =>
      let t2 := t1 ++ [Event.wait .INTERNAL_PWRITE]
      match (request_state.wait env .INTERNAL_PWRITE).1 with
      | .error e => { ret := .error e, desc := desc, trace := t2 }
      | .ok _ => { ret := .ok r_size, desc := desc, trace := t2 }

/-- Result of `open`: the descriptor handed back, or the failure raised, and the
operations issued. -/
structure OpenResult where
  ret : Except Failure GridFTPFileDesc
  trace : List Event

/-- The method `GridFTPModule::open`. A failure leaves through the `auto_ptr`,
which destroys the descriptor. -/
def GridFTPModule.open (env : Env) (url : String) (flag : Nat) : OpenResult :=
  let handler : GridFTPSessionHandler := { url := url }
  let stream := GridFTPStreamState.new
  let request := GridFTPRequestState.new
  let desc : GridFTPFileDesc :=
    { handler := handler, request := request, stream := some stream,
      open_flags := flag, current_offset := 0, url := url }
  let t0 := [Event.session_new url]
  -- check ENOENT condition for R_ONLY
  let check : Except Failure Unit × List Event :=
    if is_read_only desc.open_flags then
      match env.file_exists with
      | .error e => (.error e, [Event.exists_check url])
      | .ok false => (.error (.exception .OPEN ENOENT), [Event.exists_check url])
      | .ok true => (.ok (), [Event.exists_check url])
    else (.ok (), [])
  match check.1 with
  | .error e => { ret := .error e, trace := t0 ++ check.2 ++ desc.destroy }
  | .ok _ =>
    let t1 := t0 ++ check.2
    if is_read_only desc.open_flags then
      match gfal_globus_check_result .OPEN env.start_result with
      | .error e => { ret := .error e, trace := t1 ++ [Event.client_get url] ++ desc.destroy }
      | .ok _ => { ret := .ok desc, trace := t1 ++ [Event.client_get url] }
    else if is_write_only desc.open_flags then
      match gfal_globus_check_result .OPEN env.start_result with
      | .error e => { ret := .error e, trace := t1 ++ [Event.client_put url] ++ desc.destroy }
      | .ok _ => { ret := .ok desc, trace := t1 ++ [Event.client_put url] }
    else
      { ret := .ok desc.reset, trace := t1 ++ [Event.delete_stream] }

/-- The method `GridFTPModule::read`. -/
def GridFTPModule.read (env : Env) (desc : GridFTPFileDesc) (count : Nat) : Call Nat :=
  match desc.is_not_seeked && is_read_only desc.open_flags, desc.stream with
  | true, some s =>
    match gridftp_read_stream env .READ s count with
    | .error e => { ret := .error e, desc := desc, trace := [Event.read_stream .main count] }
    | .ok (ret, s1) =>
      { ret := .ok ret,
        desc := { desc with stream := some s1, current_offset := desc.current_offset + ret },
        trace := [Event.read_stream .main count] }
  | _, _ =>
    let r := gridftp_rw_internal_pread env desc count desc.current_offset
    match r.ret with
    | .error e => { ret := .error e, desc := r.desc, trace := r.trace }
    | .ok ret =>
      { ret := .ok ret,
        desc := { r.desc with current_offset := r.desc.current_offset + ret },
        trace := r.trace }

/-- The method `GridFTPModule::write`. -/
def GridFTPModule.write (env : Env) (desc : GridFTPFileDesc) (count : Nat) : Call Nat :=
  match desc.is_not_seeked && is_write_only desc.open_flags, desc.stream with
  | true, some s =>
    match gridftp_write_stream env .WRITE s count false with
    | .error e =>
      { ret := .error e, desc := desc, trace := [Event.write_stream .main count false] }
    | .ok (ret, s1) =>
      { ret := .ok ret,
        desc := { desc with stream := some s1, current_offset := desc.current_offset + ret },
        trace := [Event.write_stream .main count false] }
  | _, _ =>
    let r := gridftp_rw_internal_pwrite env desc count desc.current_offset
    match r.ret with
    | .error e => { ret := .error e, desc := r.desc, trace := r.trace }
    | .ok ret =>
      { ret := .ok ret,
        desc := { r.desc with current_offset := r.desc.current_offset + ret },
        trace := r.trace }

/-- The method `GridFTPModule::pread`. -/
def GridFTPModule.pread (env : Env) (desc : GridFTPFileDesc) (count : Nat)
    (offset : Int) : Call Nat :=
  gridftp_rw_internal_pread env desc count offset

/-- The method `GridFTPModule::pwrite`. -/
def GridFTPModule.pwrite (env : Env) (desc : GridFTPFileDesc) (count : Nat)
    (offset : Int) : Call Nat :=
  gridftp_rw_internal_pwrite env desc count offset

/-- The method `GridFTPModule::lseek`. -/
def GridFTPModule.lseek (desc : GridFTPFileDesc) (offset : Int) (whence : Int) : Call Int :=
  if whence = SEEK_SET then
    { ret := .ok offset, desc := { desc with current_offset := offset }, trace := [] }
  else if whence = SEEK_CUR then
    { ret := .ok (desc.current_offset + offset),
      desc := { desc with current_offset := desc.current_offset + offset }, trace := [] }
  else
    -- SEEK_END and default
    { ret := .error (.exception .LSEEK EINVAL), desc := desc, trace := [] }

/-- The last two statements of `GridFTPModule::close`: the handle is deleted,
then the descriptor. -/
def close_release (desc : GridFTPFileDesc) (trace : List Event) : CloseResult :=
  { ret := .ok 0, desc := none, trace := trace ++ [Event.handle_delete] ++ desc.destroy }

/-- The method `GridFTPModule::close`; `handle = none` is a handle without a
descriptor. -/
def GridFTPModule.close (env : Env) (handle : Option GridFTPFileDesc) : CloseResult :=
  match handle with
  | none => { ret := .ok 0, desc := none, trace := [] }
  | some desc0 =>
    let c := gridftp_rw_commit_put env desc0
    match c.ret with
    | .error e => { ret := .error e, desc := some c.desc, trace := c.trace }
    | .ok _ =>
      let desc := c.desc
      if is_write_only desc.open_flags then
        let w := desc.request.wait env .CLOSE
        let desc1 := { desc with request := w.2 }
        let t := c.trace ++ [Event.wait .CLOSE]
        match w.1 with
        | .error e => { ret := .error e, desc := some desc1, trace := t }
        | .ok _ => close_release desc1 t
      else if is_read_only desc.open_flags then
        let t0 := c.trace ++ (if !desc.request.done then [Event.client_abort] else [])
        let w := desc.request.wait env .CLOSE
        let desc1 := { desc with request := w.2 }
        let t := t0 ++ [Event.wait .CLOSE]
        match w.1 with
        | .error (.exception scope code) =>
          if code != ECANCELED then
            { ret := .error (.exception scope code), desc := some desc1, trace := t }
          else close_release desc1 t
        | .error e => { ret := .error e, desc := some desc1, trace := t }
        | .ok _ => close_release desc1 t
      else
        close_release desc c.trace

/-! ## `gridftp_checksum_module.cpp` -/

/-- The method `GridftpModule::checksum`. -/
def GridftpModule.checksum (env : Env) (url : String) (check_type : String)
    (buffer_length : Nat) (start_offset : Int) (data_length : Nat) : Outcome Unit :=
  let t0 := [Event.take_handle url]
  if buffer_length < 16 then
    { ret := .error (.exception .CHECKSUM ENOBUFS), trace := t0 }
  else
    -- (data_length) ? (data_length) : (-1), a `size_t` passed as `globus_off_t`
    let length : Int := to_globus_off_t (if data_length != 0 then (data_length : Int) else -1)
    let t1 := t0 ++ [Event.req_start, Event.canceler_register,
                     Event.client_cksm url start_offset length check_type]
    match gfal_globus_check_result .CHECKSUM env.start_result with
    | .error e => { ret := .error e, trace := t1 }
    | .ok _ =>
      -- wait for answer
      let t2 := t1 ++ [Event.wait_callback]
      match env.completion with
      | some c => { ret := .error (.exception .CHECKSUM c), trace := t2 }
      | none => { ret := .ok (), trace := t2 }

/-! ## Calls on an open descriptor -/

/-- A call made on an open descriptor, with the environment it meets. -/
inductive DescOp
  | read (env : Env) (count : Nat)
  | write (env : Env) (count : Nat)
  | pread (env : Env) (count : Nat) (offset : Int)
  | pwrite (env : Env) (count : Nat) (offset : Int)
  | lseek (offset : Int) (whence : Int)

/-- The descriptor after one call. -/
def DescOp.apply (op : DescOp) (desc : GridFTPFileDesc) : GridFTPFileDesc :=
  match op with
  | .read env count => (GridFTPModule.read env desc count).desc
  | .write env count => (GridFTPModule.write env desc count).desc
  | .pread env count offset => (GridFTPModule.pread env desc count offset).desc
  | .pwrite env count offset => (GridFTPModule.pwrite env desc count offset).desc
  | .lseek offset whence => (GridFTPModule.lseek desc offset whence).desc

/-- The descriptor after a sequence of calls, first call first. -/
def run_ops : List DescOp → GridFTPFileDesc → GridFTPFileDesc
  | [], desc => desc
  | op :: ops, desc => run_ops ops (op.apply desc)

/-- A sequence of `read` calls on one descriptor, each with its byte count and
the environment it meets: the counts returned and the descriptor at the end, or
`none` when one of the calls fails. -/
def read_sequence : List (Env × Nat) → GridFTPFileDesc → Option (List Nat × GridFTPFileDesc)
  | [], desc => some ([], desc)
  | (env, count) :: calls, desc =>
    match (GridFTPModule.read env desc count).ret with
    | .error _ => none
    | .ok n =>
      match read_sequence calls (GridFTPModule.read env desc count).desc with
      | none => none
      | some (ns, last) => some (n :: ns, last)

/-- Sum of the byte counts returned by a sequence of calls. -/
def total_bytes (ns : List Nat) : Int :=
  (ns.map Int.ofNat).sum

/-! ## Classes of operations -/

/-- Whether an operation starts a GET or a PUT, whole or partial. -/
def Event.starts_transfer : Event → Bool
  | .client_get _ => true
  | .client_put _ => true
  | .client_partial_get _ _ _ => true
  | .client_partial_put _ _ _ => true
  | _ => false

/-- Whether an operation is a checksum request to the protocol layer. -/
def Event.is_cksm : Event → Bool
  | .client_cksm _ _ _ _ => true
  | _ => false

/-! ## Sample descriptors and environments -/

/-- A descriptor as `open` leaves it when it has started a GET or a PUT. -/
def sample_desc (flags : Nat) : GridFTPFileDesc :=
  { handler := { url := "gsiftp://host/f" }, request := GridFTPRequestState.new,
    stream := some GridFTPStreamState.new, open_flags := flags, current_offset := 0,
    url := "gsiftp://host/f" }

/-- A descriptor whose request has already signaled completion, with the
failure `code` or, for `none`, with success. -/
def completed_desc (flags : Nat) (code : Option Nat) : GridFTPFileDesc :=
  { sample_desc flags with request := { done := true, error := code } }

/-- An environment in which every operation succeeds and a transfer moves
`n` bytes. -/
def env_moving (n : Nat) : Env :=
  { file_exists := .ok true, start_result := none, transfer := .ok (n, false),
    completion := none }

/-- An environment in which the existence check reports the resource absent. -/
def env_absent : Env :=
  { file_exists := .ok false, start_result := none, transfer := .ok (0, true),
    completion := none }

/-- An environment in which the pending request completes with the failure
`code`, and the stream transfer succeeds. -/
def env_completing (code : Nat) : Env :=
  { file_exists := .ok true, start_result := none, transfer := .ok (0, false),
    completion := some code }

/-- An environment in which the stream transfer fails with `code`. -/
def env_transfer_failing (code : Nat) : Env :=
  { file_exists := .ok true, start_result := none, transfer := .error code,
    completion := none }

/-! ## Lemmas on the positioned sub-operations -/

theorem internal_pread_desc (env : Env) (desc : GridFTPFileDesc) (s_buff : Nat) (offset : Int) :
    (gridftp_rw_internal_pread env desc s_buff offset).desc = desc := by
  unfold gridftp_rw_internal_pread
  simp only
  repeat' split
  all_goals rfl

theorem internal_pwrite_desc (env : Env) (desc : GridFTPFileDesc) (s_buff : Nat) (offset : Int) :
    (gridftp_rw_internal_pwrite env desc s_buff offset).desc = desc := by
  unfold gridftp_rw_internal_pwrite
  simp only
  repeat' split
  all_goals rfl

theorem internal_pread_trace (env : Env) (desc : GridFTPFileDesc) (s_buff : Nat) (offset : Int) :
    ∃ rest, (gridftp_rw_internal_pread env desc s_buff offset).trace =
        Event.session_new desc.url ::
          Event.client_partial_get desc.url offset (range_end offset s_buff) :: rest ∧
      ∀ e ∈ rest, e = Event.read_stream .scratch s_buff ∨ e = Event.wait .INTERNAL_PREAD := by
  unfold gridftp_rw_internal_pread
  simp only
  repeat' split
  all_goals simp

theorem internal_pwrite_trace (env : Env) (desc : GridFTPFileDesc) (s_buff : Nat) (offset : Int) :
    ∃ rest, (gridftp_rw_internal_pwrite env desc s_buff offset).trace =
        Event.session_new desc.url ::
          Event.client_partial_put desc.url offset (range_end offset s_buff) :: rest ∧
      ∀ e ∈ rest, e = Event.write_stream .scratch s_buff false ∨
        e = Event.wait .INTERNAL_PWRITE := by
  unfold gridftp_rw_internal_pwrite
  simp only
  repeat' split
  all_goals simp

/-! ## Lemmas on the routing of `read` and `write` -/

theorem is_not_seeked_iff (desc : GridFTPFileDesc) :
    desc.is_not_seeked = true ↔
      ∃ s, desc.stream = some s ∧ desc.current_offset = s.offset := by
  unfold GridFTPFileDesc.is_not_seeked
  cases h : desc.stream <;> simp

theorem read_live (env : Env) (desc : GridFTPFileDesc) (count : Nat) (s : GridFTPStreamState)
    (hs : desc.stream = some s) (hoff : desc.current_offset = s.offset)
    (hro : is_read_only desc.open_flags = true) :
    GridFTPModule.read env desc count =
      match gridftp_read_stream env .READ s count with
      | .error e => { ret := .error e, desc := desc, trace := [Event.read_stream .main count] }
      | .ok (ret, s1) =>
        { ret := .ok ret,
          desc := { desc with stream := some s1, current_offset := desc.current_offset + ret },
          trace := [Event.read_stream .main count] } := by
  have h1 : desc.is_not_seeked = true := (is_not_seeked_iff desc).2 ⟨s, hs, hoff⟩
  unfold GridFTPModule.read
  rw [h1, hro, hs]
  rfl

theorem read_fallback (env : Env) (desc : GridFTPFileDesc) (count : Nat)
    (h : ¬ ∃ s, desc.stream = some s ∧ desc.current_offset = s.offset ∧
      is_read_only desc.open_flags = true) :
    GridFTPModule.read env desc count =
      match (gridftp_rw_internal_pread env desc count desc.current_offset).ret with
      | .error e => { ret := .error e, desc := desc,
                      trace := (gridftp_rw_internal_pread env desc count desc.current_offset).trace }
      | .ok ret =>
        { ret := .ok ret, desc := { desc with current_offset := desc.current_offset + ret },
          trace := (gridftp_rw_internal_pread env desc count desc.current_offset).trace } := by
  have hc : (desc.is_not_seeked && is_read_only desc.open_flags) = false := by
    cases h1 : desc.is_not_seeked
    · rfl
    · cases h2 : is_read_only desc.open_flags
      · rfl
      · obtain ⟨s, hs, hoff⟩ := (is_not_seeked_iff desc).1 h1
        exact absurd ⟨s, hs, hoff, h2⟩ h
  unfold GridFTPModule.read
  rw [hc]
  simp only [internal_pread_desc]

theorem write_live (env : Env) (desc : GridFTPFileDesc) (count : Nat) (s : GridFTPStreamState)
    (hs : desc.stream = some s) (hoff : desc.current_offset = s.offset)
    (hwo : is_write_only desc.open_flags = true) :
    GridFTPModule.write env desc count =
      match gridftp_write_stream env .WRITE s count false with
      | .error e =>
        { ret := .error e, desc := desc, trace := [Event.write_stream .main count false] }
      | .ok (ret, s1) =>
        { ret := .ok ret,
          desc := { desc with stream := some s1, current_offset := desc.current_offset + ret },
          trace := [Event.write_stream .main count false] } := by
  have h1 : desc.is_not_seeked = true := (is_not_seeked_iff desc).2 ⟨s, hs, hoff⟩
  unfold GridFTPModule.write
  rw [h1, hwo, hs]
  rfl

theorem write_fallback (env : Env) (desc : GridFTPFileDesc) (count : Nat)
    (h : ¬ ∃ s, desc.stream = some s ∧ desc.current_offset = s.offset ∧
      is_write_only desc.open_flags = true) :
    GridFTPModule.write env desc count =
      match (gridftp_rw_internal_pwrite env desc count desc.current_offset).ret with
      | .error e => { ret := .error e, desc := desc,
                      trace := (gridftp_rw_internal_pwrite env desc count desc.current_offset).trace }
      | .ok ret =>
        { ret := .ok ret, desc := { desc with current_offset := desc.current_offset + ret },
          trace := (gridftp_rw_internal_pwrite env desc count desc.current_offset).trace } := by
  have hc : (desc.is_not_seeked && is_write_only desc.open_flags) = false := by
    cases h1 : desc.is_not_seeked
    · rfl
    · cases h2 : is_write_only desc.open_flags
      · rfl
      · obtain ⟨s, hs, hoff⟩ := (is_not_seeked_iff desc).1 h1
        exact absurd ⟨s, hs, hoff, h2⟩ h
  unfold GridFTPModule.write
  rw [hc]
  simp only [internal_pwrite_desc]

/-! ## Routing of `read` and `write` by the flag predicates -/

theorem routing_by_predicates (env : Env) (desc : GridFTPFileDesc) (count : Nat) :
    ((GridFTPModule.read env desc count).trace = [Event.read_stream .main count] ↔
      ∃ s, desc.stream = some s ∧ desc.current_offset = s.offset ∧
        is_read_only desc.open_flags = true) ∧
    (Event.client_partial_get desc.url desc.current_offset
          (range_end desc.current_offset count) ∈
        (GridFTPModule.read env desc count).trace ↔
      ¬ ∃ s, desc.stream = some s ∧ desc.current_offset = s.offset ∧
        is_read_only desc.open_flags = true) ∧
    ((∃ s, desc.stream = some s ∧ desc.current_offset = s.offset ∧
        is_read_only desc.open_flags = true) ∨
      ((GridFTPModule.read env desc count).ret =
          (gridftp_rw_internal_pread env desc count desc.current_offset).ret ∧
        (GridFTPModule.read env desc count).trace =
          (gridftp_rw_internal_pread env desc count desc.current_offset).trace)) ∧
    ((GridFTPModule.write env desc count).trace = [Event.write_stream .main count false] ↔
      ∃ s, desc.stream = some s ∧ desc.current_offset = s.offset ∧
        is_write_only desc.open_flags = true) ∧
    (Event.client_partial_put desc.url desc.current_offset
          (range_end desc.current_offset count) ∈
        (GridFTPModule.write env desc count).trace ↔
      ¬ ∃ s, desc.stream = some s ∧ desc.current_offset = s.offset ∧
        is_write_only desc.open_flags = true) ∧
    ((∃ s, desc.stream = some s ∧ desc.current_offset = s.offset ∧
        is_write_only desc.open_flags = true) ∨
      ((GridFTPModule.write env desc count).ret =
          (gridftp_rw_internal_pwrite env desc count desc.current_offset).ret ∧
        (GridFTPModule.write env desc count).trace =
          (gridftp_rw_internal_pwrite env desc count desc.current_offset).trace)) := by
  have live_r : (∃ s, desc.stream = some s ∧ desc.current_offset = s.offset ∧
        is_read_only desc.open_flags = true) →
      (GridFTPModule.read env desc count).trace = [Event.read_stream .main count] := by
    rintro ⟨s, hs, hoff, hro⟩
    rw [read_live env desc count s hs hoff hro]
    split <;> rfl
  have fb_r : (¬ ∃ s, desc.stream = some s ∧ desc.current_offset = s.offset ∧
        is_read_only desc.open_flags = true) →
      (GridFTPModule.read env desc count).ret =
          (gridftp_rw_internal_pread env desc count desc.current_offset).ret ∧
        (GridFTPModule.read env desc count).trace =
          (gridftp_rw_internal_pread env desc count desc.current_offset).trace := by
    intro h
    rw [read_fallback env desc count h]
    split <;> rename_i heq <;> simp [heq]
  have live_w : (∃ s, desc.stream = some s ∧ desc.current_offset = s.offset ∧
        is_write_only desc.open_flags = true) →
      (GridFTPModule.write env desc count).trace = [Event.write_stream .main count false] := by
    rintro ⟨s, hs, hoff, hwo⟩
    rw [write_live env desc count s hs hoff hwo]
    split <;> rfl
  have fb_w : (¬ ∃ s, desc.stream = some s ∧ desc.current_offset = s.offset ∧
        is_write_only desc.open_flags = true) →
      (GridFTPModule.write env desc count).ret =
          (gridftp_rw_internal_pwrite env desc count desc.current_offset).ret ∧
        (GridFTPModule.write env desc count).trace =
          (gridftp_rw_internal_pwrite env desc count desc.current_offset).trace := by
    intro h
    rw [write_fallback env desc count h]
    split <;> rename_i heq <;> simp [heq]
  obtain ⟨rest_r, hrr, -⟩ := internal_pread_trace env desc count desc.current_offset
  obtain ⟨rest_w, hrw, -⟩ := internal_pwrite_trace env desc count desc.current_offset
  refine ⟨⟨?_, live_r⟩, ⟨?_, ?_⟩, ?_, ⟨?_, live_w⟩, ⟨?_, ?_⟩, ?_⟩
  · intro h
    by_contra hc
    rw [(fb_r hc).2, hrr] at h
    simp at h
  · intro h hc
    rw [live_r hc] at h
    simp at h
  · intro hc
    rw [(fb_r hc).2, hrr]
    simp
  · by_cases hc : ∃ s, desc.stream = some s ∧ desc.current_offset = s.offset ∧
        is_read_only desc.open_flags = true
    · exact Or.inl hc
    · exact Or.inr (fb_r hc)
  · intro h
    by_contra hc
    rw [(fb_w hc).2, hrw] at h
    simp at h
  · intro h hc
    rw [live_w hc] at h
    simp at h
  · intro hc
    rw [(fb_w hc).2, hrw]
    simp
  · by_cases hc : ∃ s, desc.stream = some s ∧ desc.current_offset = s.offset ∧
        is_write_only desc.open_flags = true
    · exact Or.inl hc
    · exact Or.inr (fb_w hc)

/-! ## Cursor advance -/

theorem read_ok_cursor (env : Env) (desc : GridFTPFileDesc) (count n : Nat)
    (h : (GridFTPModule.read env desc count).ret = .ok n) :
    (GridFTPModule.read env desc count).desc.current_offset = desc.current_offset + n ∧
      ∃ eof, env.transfer = .ok (n, eof) := by
  by_cases hc : ∃ s, desc.stream = some s ∧ desc.current_offset = s.offset ∧
      is_read_only desc.open_flags = true
  · obtain ⟨s, hs, hoff, hro⟩ := hc
    rw [read_live env desc count s hs hoff hro] at h ⊢
    unfold gridftp_read_stream at h ⊢
    cases ht : env.transfer with
    | error c => simp [ht] at h
    | ok p =>
      obtain ⟨m, eof⟩ := p
      simp only [ht, Except.ok.injEq] at h ⊢
      subst h
      exact ⟨rfl, eof, rfl⟩
  · rw [read_fallback env desc count hc] at h ⊢
    cases hr : (gridftp_rw_internal_pread env desc count desc.current_offset).ret with
    | error e => simp [hr] at h
    | ok m =>
      simp only [hr, Except.ok.injEq] at h ⊢
      subst h
      refine ⟨rfl, ?_⟩
      unfold gridftp_rw_internal_pread gridftp_read_stream at hr
      cases ht : env.transfer with
      | error c =>
        simp only [ht] at hr
        split at hr <;> simp at hr
      | ok p =>
        obtain ⟨k, eof⟩ := p
        simp only [ht] at hr
        split at hr
        · simp at hr
        · split at hr
          · simp at hr
          · simp only [Except.ok.injEq] at hr
            exact ⟨eof, by rw [hr]⟩

theorem write_ok_cursor (env : Env) (desc : GridFTPFileDesc) (count n : Nat)
    (h : (GridFTPModule.write env desc count).ret = .ok n) :
    (GridFTPModule.write env desc count).desc.current_offset = desc.current_offset + n ∧
      ∃ eof, env.transfer = .ok (n, eof) := by
  by_cases hc : ∃ s, desc.stream = some s ∧ desc.current_offset = s.offset ∧
      is_write_only desc.open_flags = true
  · obtain ⟨s, hs, hoff, hwo⟩ := hc
    rw [write_live env desc count s hs hoff hwo] at h ⊢
    unfold gridftp_write_stream at h ⊢
    cases ht : env.transfer with
    | error c => simp [ht] at h
    | ok p =>
      obtain ⟨m, eof⟩ := p
      simp only [ht, Except.ok.injEq] at h ⊢
      subst h
      exact ⟨rfl, eof, rfl⟩
  · rw [write_fallback env desc count hc] at h ⊢
    cases hr : (gridftp_rw_internal_pwrite env desc count desc.current_offset).ret with
    | error e => simp [hr] at h
    | ok m =>
      simp only [hr, Except.ok.injEq] at h ⊢
      subst h
      refine ⟨rfl, ?_⟩
      unfold gridftp_rw_internal_pwrite gridftp_write_stream at hr
      cases ht : env.transfer with
      | error c =>
        simp only [ht] at hr
        split at hr <;> simp at hr
      | ok p =>
        obtain ⟨k, eof⟩ := p
        simp only [ht] at hr
        split at hr
        · simp at hr
        · split at hr
          · simp at hr
          · simp only [Except.ok.injEq] at hr
            exact ⟨eof, by rw [hr]⟩

theorem read_sequence_cursor (calls : List (Env × Nat)) :
    ∀ (desc : GridFTPFileDesc) (ns : List Nat) (last : GridFTPFileDesc),
      read_sequence calls desc = some (ns, last) →
      last.current_offset = desc.current_offset + total_bytes ns ∧
        ns.length = calls.length := by
  induction calls with
  | nil =>
    intro desc ns last h
    simp only [read_sequence, Option.some.injEq, Prod.mk.injEq] at h
    obtain ⟨h1, h2⟩ := h
    subst h1 h2
    simp [total_bytes]
  | cons call calls ih =>
    intro desc ns last h
    obtain ⟨env, count⟩ := call
    simp only [read_sequence] at h
    cases hr : (GridFTPModule.read env desc count).ret with
    | error e => simp [hr] at h
    | ok n =>
      simp only [hr] at h
      cases hs : read_sequence calls (GridFTPModule.read env desc count).desc with
      | none => simp [hs] at h
      | some p =>
        obtain ⟨ms, fin⟩ := p
        simp only [hs, Option.some.injEq, Prod.mk.injEq] at h
        obtain ⟨h1, h2⟩ := h
        subst h1 h2
        obtain ⟨ihc, ihl⟩ := ih _ ms fin hs
        rw [ihc, (read_ok_cursor env desc count n hr).1]
        simp only [total_bytes, List.map_cons, List.sum_cons, List.length_cons, ihl, and_true]
        simp only [Int.ofNat_eq_coe]
        ring

/-- C2: a `read` or `write` that succeeds and returns `n` leaves the cursor at
the cursor before the call plus `n`, on the live stream and on the positional
route alike, where `n` is the byte count the transfer moved (whatever the count
asked for); and after a sequence of successful reads that starts at cursor 0 the
cursor is the sum of the counts returned. -/
theorem cursor_advance (env : Env) (desc : GridFTPFileDesc) (count n : Nat) :
    ((GridFTPModule.read env desc count).ret = .ok n →
      (GridFTPModule.read env desc count).desc.current_offset = desc.current_offset + n ∧
        ∃ eof, env.transfer = .ok (n, eof)) ∧
    ((GridFTPModule.write env desc count).ret = .ok n →
      (GridFTPModule.write env desc count).desc.current_offset = desc.current_offset + n ∧
        ∃ eof, env.transfer = .ok (n, eof)) ∧
    (∀ (calls : List (Env × Nat)) (ns : List Nat) (last : GridFTPFileDesc),
      desc.current_offset = 0 → read_sequence calls desc = some (ns, last) →
      last.current_offset = total_bytes ns ∧ ns.length = calls.length) := by
  refine ⟨read_ok_cursor env desc count n, write_ok_cursor env desc count n, ?_⟩
  intro calls ns last h0 hseq
  have h := read_sequence_cursor calls desc ns last hseq
  rw [h0, zero_add] at h
  exact h

/-- Witness of C2: a read of 10 bytes that returns 4 on the live stream, a write
of 10 bytes that returns 4 on the positional route of a read-only descriptor,
and the reads returning 4 and 3 in a row. -/
theorem cursor_advance_witness :
    (GridFTPModule.read (env_moving 4) (sample_desc O_RDONLY) 10).ret = .ok 4 ∧
    (GridFTPModule.read (env_moving 4) (sample_desc O_RDONLY) 10).desc.current_offset = 4 ∧
    (GridFTPModule.write (env_moving 4) (sample_desc O_RDONLY) 10).ret = .ok 4 ∧
    (GridFTPModule.write (env_moving 4) (sample_desc O_RDONLY) 10).desc.current_offset = 4 ∧
    (∃ last, read_sequence [(env_moving 4, 10), (env_moving 3, 10)] (sample_desc O_RDONLY) =
        some ([4, 3], last) ∧ last.current_offset = 7) := by
  have hr : (GridFTPModule.read (env_moving 4) (sample_desc O_RDONLY) 10).ret = .ok 4 := rfl
  have hw : (GridFTPModule.write (env_moving 4) (sample_desc O_RDONLY) 10).ret = .ok 4 := rfl
  have hs : read_sequence [(env_moving 4, 10), (env_moving 3, 10)] (sample_desc O_RDONLY) =
      some ([4, 3], (GridFTPModule.read (env_moving 3)
        (GridFTPModule.read (env_moving 4) (sample_desc O_RDONLY) 10).desc 10).desc) := rfl
  have key := cursor_advance (env_moving 4) (sample_desc O_RDONLY) 10 4
  refine ⟨hr, ?_, hw, ?_, _, hs, ?_⟩
  · have h := (key.1 hr).1
    simpa [sample_desc] using h
  · have h := (key.2.1 hw).1
    simpa [sample_desc] using h
  · have h := (key.2.2 _ _ _ rfl hs).1
    simpa [total_bytes] using h

/-! ## `lseek` -/

/-- C3: for every cursor and offset, `lseek` with `SEEK_SET` sets the cursor to
the offset and returns it; with `SEEK_CUR` it sets the cursor to cursor plus
offset and returns that; with `SEEK_END` it fails with `EINVAL` and the
descriptor, its cursor included, stays as it was. -/
theorem lseek_whence (desc : GridFTPFileDesc) (offset : Int) :
    (GridFTPModule.lseek desc offset SEEK_SET).ret = .ok offset ∧
    (GridFTPModule.lseek desc offset SEEK_SET).desc = { desc with current_offset := offset } ∧
    (GridFTPModule.lseek desc offset SEEK_CUR).ret = .ok (desc.current_offset + offset) ∧
    (GridFTPModule.lseek desc offset SEEK_CUR).desc =
      { desc with current_offset := desc.current_offset + offset } ∧
    (GridFTPModule.lseek desc offset SEEK_END).ret = .error (.exception .LSEEK EINVAL) ∧
    (GridFTPModule.lseek desc offset SEEK_END).desc = desc ∧
    (GridFTPModule.lseek desc offset SEEK_END).desc.current_offset = desc.current_offset := by
  refine ⟨rfl, rfl, rfl, rfl, rfl, rfl, rfl⟩

/-! ## `open` -/

/-- C4: for every URL and every flags value of which `is_read_only` holds, when
the existence check reports the resource absent `open` fails with `ENOENT`,
hands back no descriptor and starts no GET or PUT: it has built the session,
asked for existence and destroyed the descriptor it had allocated. -/
theorem open_read_only_absent (env : Env) (url : String) (flag : Nat)
    (hro : is_read_only flag = true) (habs : env.file_exists = .ok false) :
    (GridFTPModule.open env url flag).ret = .error (.exception .OPEN ENOENT) ∧
    (∀ desc, (GridFTPModule.open env url flag).ret ≠ .ok desc) ∧
    (∀ e ∈ (GridFTPModule.open env url flag).trace, e.starts_transfer = false) ∧
    (GridFTPModule.open env url flag).trace =
      [Event.session_new url, Event.exists_check url, Event.delete_stream,
       Event.delete_request, Event.delete_handler] := by
  have h : GridFTPModule.open env url flag =
      { ret := .error (.exception .OPEN ENOENT),
        trace := [Event.session_new url, Event.exists_check url, Event.delete_stream,
          Event.delete_request, Event.delete_handler] } := by
    unfold GridFTPModule.open
    simp only [hro, habs, if_true]
    rfl
  rw [h]
  refine ⟨rfl, ?_, ?_, rfl⟩
  · intro desc hd
    cases hd
  · intro e he
    simp only [List.mem_cons, List.mem_singleton, List.not_mem_nil, or_false] at he
    rcases he with rfl | rfl | rfl | rfl | rfl <;> rfl

/-- Witness of C4: `open` with `O_RDONLY` on an absent resource. -/
theorem open_read_only_absent_witness :
    is_read_only O_RDONLY = true ∧ env_absent.file_exists = .ok false ∧
    (GridFTPModule.open env_absent "gsiftp://host/none" O_RDONLY).ret =
      .error (.exception .OPEN ENOENT) ∧
    (∀ e ∈ (GridFTPModule.open env_absent "gsiftp://host/none" O_RDONLY).trace,
      e.starts_transfer = false) :=
  ⟨rfl, rfl,
    (open_read_only_absent env_absent "gsiftp://host/none" O_RDONLY rfl rfl).1,
    (open_read_only_absent env_absent "gsiftp://host/none" O_RDONLY rfl rfl).2.2.1⟩

/-! ## Descriptors without a stream -/

theorem read_fallback_stream (env : Env) (desc : GridFTPFileDesc) (count : Nat)
    (h : ¬ ∃ s, desc.stream = some s ∧ desc.current_offset = s.offset ∧
      is_read_only desc.open_flags = true) :
    (GridFTPModule.read env desc count).desc.stream = desc.stream ∧
    (GridFTPModule.read env desc count).desc.open_flags = desc.open_flags ∧
    (GridFTPModule.read env desc count).desc.url = desc.url := by
  rw [read_fallback env desc count h]
  split <;> exact ⟨rfl, rfl, rfl⟩

theorem write_fallback_stream (env : Env) (desc : GridFTPFileDesc) (count : Nat)
    (h : ¬ ∃ s, desc.stream = some s ∧ desc.current_offset = s.offset ∧
      is_write_only desc.open_flags = true) :
    (GridFTPModule.write env desc count).desc.stream = desc.stream ∧
    (GridFTPModule.write env desc count).desc.open_flags = desc.open_flags ∧
    (GridFTPModule.write env desc count).desc.url = desc.url := by
  rw [write_fallback env desc count h]
  split <;> exact ⟨rfl, rfl, rfl⟩

theorem lseek_stream (desc : GridFTPFileDesc) (offset whence : Int) :
    (GridFTPModule.lseek desc offset whence).desc.stream = desc.stream ∧
    (GridFTPModule.lseek desc offset whence).desc.open_flags = desc.open_flags ∧
    (GridFTPModule.lseek desc offset whence).desc.url = desc.url := by
  unfold GridFTPModule.lseek
  repeat' split
  all_goals exact ⟨rfl, rfl, rfl⟩

theorem apply_no_stream (op : DescOp) (desc : GridFTPFileDesc) (h : desc.stream = none) :
    (op.apply desc).stream = none ∧ (op.apply desc).url = desc.url := by
  have hr : ¬ ∃ s, desc.stream = some s ∧ desc.current_offset = s.offset ∧
      is_read_only desc.open_flags = true := by
    rintro ⟨s, hs, -⟩
    rw [h] at hs
    cases hs
  have hw : ¬ ∃ s, desc.stream = some s ∧ desc.current_offset = s.offset ∧
      is_write_only desc.open_flags = true := by
    rintro ⟨s, hs, -⟩
    rw [h] at hs
    cases hs
  cases op with
  | read env count =>
    have := read_fallback_stream env desc count hr
    exact ⟨by rw [DescOp.apply, this.1, h], this.2.2⟩
  | write env count =>
    have := write_fallback_stream env desc count hw
    exact ⟨by rw [DescOp.apply, this.1, h], this.2.2⟩
  | pread env count offset =>
    simp only [DescOp.apply, GridFTPModule.pread, internal_pread_desc, h, and_self]
  | pwrite env count offset =>
    simp only [DescOp.apply, GridFTPModule.pwrite, internal_pwrite_desc, h, and_self]
  | lseek offset whence =>
    have := lseek_stream desc offset whence
    exact ⟨by rw [DescOp.apply, this.1, h], this.2.2⟩

theorem run_ops_no_stream (ops : List DescOp) :
    ∀ desc : GridFTPFileDesc, desc.stream = none →
      (run_ops ops desc).stream = none ∧ (run_ops ops desc).url = desc.url := by
  induction ops with
  | nil => intro desc h; exact ⟨h, rfl⟩
  | cons op ops ih =>
    intro desc h
    have h1 := apply_no_stream op desc h
    have h2 := ih (op.apply desc) h1.1
    exact ⟨h2.1, h2.2.trans h1.2⟩

/-! ## Flag predicates -/

theorem is_read_only_iff (flag : Nat) :
    is_read_only flag = true ↔ flag &&& O_ACCMODE = 0 := by
  simp [is_read_only, O_RDONLY, O_WRONLY, O_RDWR, O_ACCMODE]

theorem nat_or_eq_zero (a b : Nat) : a ||| b = 0 ↔ a = 0 ∧ b = 0 := by
  constructor
  · intro h
    have hbit : ∀ i, (a.testBit i || b.testBit i) = false := by
      intro i
      rw [← Nat.testBit_or, h, Nat.zero_testBit]
    constructor
    · apply Nat.eq_of_testBit_eq
      intro i
      have := hbit i
      rw [Nat.zero_testBit]
      cases ha : a.testBit i
      · rfl
      · rw [ha] at this
        cases this
    · apply Nat.eq_of_testBit_eq
      intro i
      have := hbit i
      rw [Nat.zero_testBit]
      cases hb : b.testBit i
      · rfl
      · rw [hb, Bool.or_true] at this
        cases this
  · rintro ⟨rfl, rfl⟩
    rfl

theorem is_write_only_iff (flag : Nat) :
    is_write_only flag = true ↔ (flag &&& O_WRONLY ≠ 0 ∨ flag &&& O_CREAT ≠ 0) := by
  unfold is_write_only
  rw [Nat.and_or_distrib_left]
  simp only [bne_iff_ne, ne_eq, nat_or_eq_zero, not_and_or]

theorem accmode_rdwr_not_wronly (flag : Nat) (hacc : flag &&& O_ACCMODE = O_RDWR) :
    flag &&& O_WRONLY = 0 := by
  have h : flag &&& O_WRONLY = (flag &&& O_ACCMODE) &&& O_WRONLY := by
    rw [Nat.and_assoc]
    rfl
  rw [h, hacc]
  rfl

theorem rdwr_no_creat_flags (flag : Nat) (hacc : flag &&& O_ACCMODE = O_RDWR)
    (hcreat : flag &&& O_CREAT = 0) :
    is_read_only flag = false ∧ is_write_only flag = false := by
  constructor
  · rw [← Bool.not_eq_true, is_read_only_iff, hacc]
    decide
  · rw [← Bool.not_eq_true, is_write_only_iff, accmode_rdwr_not_wronly flag hacc, hcreat]
    simp

/-! ## `open` with read-write intent -/

theorem open_rdwr_plain (env : Env) (url : String) (flag : Nat)
    (hacc : flag &&& O_ACCMODE = O_RDWR) (hcreat : flag &&& O_CREAT = 0) :
    GridFTPModule.open env url flag =
      { ret := .ok { handler := { url := url }, request := GridFTPRequestState.new,
                     stream := none, open_flags := flag, current_offset := 0, url := url },
        trace := [Event.session_new url, Event.delete_stream] } := by
  obtain ⟨hro, hwo⟩ := rdwr_no_creat_flags flag hacc hcreat
  unfold GridFTPModule.open
  simp only [hro, hwo]
  rfl

/-- C5, as amended: for every flags value whose access mode is `O_RDWR` and in
which `O_CREAT` is not set, `open` starts neither a GET nor a PUT and discards
the stream state, so that `is_not_seeked` is false and, after any calls made on
the descriptor, every `read` and `write` takes the positional route at the
cursor reached. -/
theorem open_rdwr_without_creat (env : Env) (url : String) (flag : Nat)
    (hacc : flag &&& O_ACCMODE = O_RDWR) (hcreat : flag &&& O_CREAT = 0) :
    ∃ desc, (GridFTPModule.open env url flag).ret = .ok desc ∧
      (∀ e ∈ (GridFTPModule.open env url flag).trace, e.starts_transfer = false) ∧
      Event.delete_stream ∈ (GridFTPModule.open env url flag).trace ∧
      desc.stream = none ∧ desc.is_not_seeked = false ∧
      ∀ (ops : List DescOp) (env1 : Env) (count : Nat),
        (run_ops ops desc).is_not_seeked = false ∧
        Event.client_partial_get url (run_ops ops desc).current_offset
            (range_end (run_ops ops desc).current_offset count) ∈
          (GridFTPModule.read env1 (run_ops ops desc) count).trace ∧
        Event.read_stream .main count ∉
          (GridFTPModule.read env1 (run_ops ops desc) count).trace ∧
        Event.client_partial_put url (run_ops ops desc).current_offset
            (range_end (run_ops ops desc).current_offset count) ∈
          (GridFTPModule.write env1 (run_ops ops desc) count).trace ∧
        Event.write_stream .main count false ∉
          (GridFTPModule.write env1 (run_ops ops desc) count).trace := by
  rw [open_rdwr_plain env url flag hacc hcreat]
  refine ⟨_, rfl, ?_, ?_, rfl, rfl, ?_⟩
  · intro e he
    simp only [List.mem_cons, List.mem_singleton, List.not_mem_nil, or_false] at he
    rcases he with rfl | rfl <;> rfl
  · simp
  · intro ops env1 count
    obtain ⟨hs, hu⟩ := run_ops_no_stream ops
      { handler := { url := url }, request := GridFTPRequestState.new,
        stream := none, open_flags := flag, current_offset := 0, url := url } rfl
    simp only at hu
    generalize run_ops ops
      { handler := { url := url }, request := GridFTPRequestState.new,
        stream := none, open_flags := flag, current_offset := 0, url := url } = d at hs hu ⊢
    have hr : ¬ ∃ s, d.stream = some s ∧ d.current_offset = s.offset ∧
        is_read_only d.open_flags = true := by
      rintro ⟨s, h, -⟩
      rw [hs] at h
      cases h
    have hw : ¬ ∃ s, d.stream = some s ∧ d.current_offset = s.offset ∧
        is_write_only d.open_flags = true := by
      rintro ⟨s, h, -⟩
      rw [hs] at h
      cases h
    obtain ⟨rest_r, hrr, hrest_r⟩ := internal_pread_trace env1 d count d.current_offset
    obtain ⟨rest_w, hrw, hrest_w⟩ := internal_pwrite_trace env1 d count d.current_offset
    have tr : (GridFTPModule.read env1 d count).trace =
        (gridftp_rw_internal_pread env1 d count d.current_offset).trace := by
      rw [read_fallback env1 d count hr]
      split <;> rfl
    have tw : (GridFTPModule.write env1 d count).trace =
        (gridftp_rw_internal_pwrite env1 d count d.current_offset).trace := by
      rw [write_fallback env1 d count hw]
      split <;> rfl
    rw [tr, tw, hrr, hrw, ← hu]
    refine ⟨?_, ?_, ?_, ?_, ?_⟩
    · simp [GridFTPFileDesc.is_not_seeked, hs]
    · simp
    · intro hmem
      simp only [List.mem_cons, reduceCtorEq, false_or] at hmem
      rcases hrest_r _ hmem with h | h <;> cases h
    · simp
    · intro hmem
      simp only [List.mem_cons, reduceCtorEq, false_or] at hmem
      rcases hrest_w _ hmem with h | h <;> cases h

/-- Witness of C5 as amended: `open` with plain `O_RDWR`. -/
theorem open_rdwr_without_creat_witness :
    O_RDWR &&& O_ACCMODE = O_RDWR ∧ O_RDWR &&& O_CREAT = 0 ∧
    ∃ desc, (GridFTPModule.open (env_moving 2) "gsiftp://host/f" O_RDWR).ret = .ok desc ∧
      desc.stream = none ∧ desc.is_not_seeked = false :=
  ⟨rfl, rfl,
    (open_rdwr_without_creat (env_moving 2) "gsiftp://host/f" O_RDWR rfl rfl).imp
      fun _ h => ⟨h.1, h.2.2.2.1, h.2.2.2.2.1⟩⟩

/-- C5 refuted as stated: with `O_RDWR | O_CREAT` the access mode is `O_RDWR`, yet
`open` starts a PUT and keeps the stream state; `is_not_seeked` is true on the
descriptor handed back and a `write` on it is served from the live stream. -/
theorem open_rdwr_creat_starts_put :
    (O_RDWR ||| O_CREAT) &&& O_ACCMODE = O_RDWR ∧
    Event.client_put "gsiftp://host/f" ∈
      (GridFTPModule.open (env_moving 2) "gsiftp://host/f" (O_RDWR ||| O_CREAT)).trace ∧
    (GridFTPModule.open (env_moving 2) "gsiftp://host/f" (O_RDWR ||| O_CREAT)).ret =
      .ok (sample_desc (O_RDWR ||| O_CREAT)) ∧
    (sample_desc (O_RDWR ||| O_CREAT)).stream = some GridFTPStreamState.new ∧
    (sample_desc (O_RDWR ||| O_CREAT)).is_not_seeked = true ∧
    (GridFTPModule.write (env_moving 2) (sample_desc (O_RDWR ||| O_CREAT)) 2).trace =
      [Event.write_stream .main 2 false] := by
  refine ⟨rfl, ?_, rfl, rfl, rfl, rfl⟩
  decide

/-! ## Frame of the positioned operations -/

theorem open_read_only_present (env : Env) (url : String) (flag : Nat)
    (hro : is_read_only flag = true) (hex : env.file_exists = .ok true)
    (hst : env.start_result = none) :
    GridFTPModule.open env url flag =
      { ret := .ok { handler := { url := url }, request := GridFTPRequestState.new,
                     stream := some GridFTPStreamState.new, open_flags := flag,
                     current_offset := 0, url := url },
        trace := [Event.session_new url, Event.exists_check url, Event.client_get url] } := by
  unfold GridFTPModule.open
  simp only [hro, hex, hst, if_true]
  rfl

/-! ## `close` -/

theorem close_read_branch (env : Env) (desc : GridFTPFileDesc)
    (hro : is_read_only desc.open_flags = true) (hwo : is_write_only desc.open_flags = false) :
    GridFTPModule.close env (some desc) =
      match (desc.request.wait env .CLOSE).1 with
      | .error (.exception scope code) =>
        if code != ECANCELED then
          { ret := .error (.exception scope code),
            desc := some { desc with request := (desc.request.wait env .CLOSE).2 },
            trace := (if !desc.request.done then [Event.client_abort] else []) ++
              [Event.wait .CLOSE] }
        else close_release { desc with request := (desc.request.wait env .CLOSE).2 }
          ((if !desc.request.done then [Event.client_abort] else []) ++ [Event.wait .CLOSE])
      | .error e =>
        { ret := .error e,
          desc := some { desc with request := (desc.request.wait env .CLOSE).2 },
          trace := (if !desc.request.done then [Event.client_abort] else []) ++
            [Event.wait .CLOSE] }
      | .ok _ => close_release { desc with request := (desc.request.wait env .CLOSE).2 }
          ((if !desc.request.done then [Event.client_abort] else []) ++ [Event.wait .CLOSE]) := by
  unfold GridFTPModule.close gridftp_rw_commit_put
  simp only [hwo, hro, Bool.false_eq_true, if_false, if_true, List.nil_append]

theorem wait_done (env : Env) (scope : Scope) (r : GridFTPRequestState)
    (hd : r.done = true) :
    (r.wait env scope).1 =
      (match r.error with
        | none => .ok ()
        | some c => .error (.exception scope c)) ∧
    (r.wait env scope).2 = r := by
  unfold GridFTPRequestState.wait
  simp only [hd, if_true]
  cases r.error <;> exact ⟨rfl, rfl⟩

theorem wait_pending (env : Env) (scope : Scope) (r : GridFTPRequestState)
    (hd : r.done = false) :
    (r.wait env scope).1 =
      (match env.completion with
        | none => .ok ()
        | some c => .error (.exception scope c)) := by
  unfold GridFTPRequestState.wait
  simp only [hd, Bool.false_eq_true, if_false]
  cases env.completion <;> rfl

/-- On the read path of `close` (read-only flags that are not write flags): the GET
is aborted if and only if the request has not signaled completion; a wait that
succeeds, or fails with `ECANCELED`, ends in success with the descriptor released;
a wait that fails with another code makes `close` fail with it. -/
theorem close_read_path (env : Env) (desc : GridFTPFileDesc)
    (hro : is_read_only desc.open_flags = true) (hwo : is_write_only desc.open_flags = false) :
    (Event.client_abort ∈ (GridFTPModule.close env (some desc)).trace ↔
      desc.request.done = false) ∧
    ((desc.request.wait env .CLOSE).1 = .ok () →
      (GridFTPModule.close env (some desc)).ret = .ok 0 ∧
      (GridFTPModule.close env (some desc)).desc = none) ∧
    ((desc.request.wait env .CLOSE).1 = .error (.exception .CLOSE ECANCELED) →
      (GridFTPModule.close env (some desc)).ret = .ok 0 ∧
      (GridFTPModule.close env (some desc)).desc = none) ∧
    (∀ code, code ≠ ECANCELED →
      (desc.request.wait env .CLOSE).1 = .error (.exception .CLOSE code) →
      (GridFTPModule.close env (some desc)).ret = .error (.exception .CLOSE code)) := by
  rw [close_read_branch env desc hro hwo]
  refine ⟨?_, ?_, ?_, ?_⟩
  · have hdestroy : ∀ d : GridFTPFileDesc, Event.client_abort ∉ d.destroy := by
      intro d
      unfold GridFTPFileDesc.destroy
      split <;> simp
    cases hd : desc.request.done
    all_goals simp only [Bool.not_false, Bool.not_true, if_true, Bool.false_eq_true, if_false]
    all_goals repeat' split
    all_goals simp [close_release, hdestroy]
  · intro hw
    rw [hw]
    exact ⟨rfl, rfl⟩
  · intro hw
    rw [hw]
    exact ⟨rfl, rfl⟩
  · intro code hne hw
    rw [hw]
    simp [hne]

/-- C7, the code at the failing input: with flags `O_RDONLY | O_CREAT` both
`is_read_only` and `is_write_only` hold; `open` starts a GET, and `close` on that
descriptor, whose request is still pending, issues the terminal write of the PUT
path and waits without any abort; a wait that then fails with `ECANCELED` makes
`close` fail with it. -/
theorem close_read_descriptor_with_creat :
    is_read_only (O_RDONLY ||| O_CREAT) = true ∧
    is_write_only (O_RDONLY ||| O_CREAT) = true ∧
    (GridFTPModule.open (env_moving 0) "gsiftp://host/f" (O_RDONLY ||| O_CREAT)).ret =
      .ok (sample_desc (O_RDONLY ||| O_CREAT)) ∧
    (GridFTPModule.open (env_moving 0) "gsiftp://host/f" (O_RDONLY ||| O_CREAT)).trace =
      [Event.session_new "gsiftp://host/f", Event.exists_check "gsiftp://host/f",
       Event.client_get "gsiftp://host/f"] ∧
    (sample_desc (O_RDONLY ||| O_CREAT)).request.done = false ∧
    (GridFTPModule.close (env_moving 0) (some (sample_desc (O_RDONLY ||| O_CREAT)))).trace =
      [Event.write_stream .main 0 true, Event.wait .CLOSE, Event.handle_delete,
       Event.delete_stream, Event.delete_request, Event.delete_handler] ∧
    Event.client_abort ∉
      (GridFTPModule.close (env_moving 0) (some (sample_desc (O_RDONLY ||| O_CREAT)))).trace ∧
    (GridFTPModule.close (env_completing ECANCELED)
        (some (sample_desc (O_RDONLY ||| O_CREAT)))).ret =
      .error (.exception .CLOSE ECANCELED) := by
  refine ⟨rfl, rfl, rfl, rfl, rfl, rfl, ?_, rfl⟩
  decide

/-- C8, as amended: `close` does not tell a cancellation it caused from one it
did not. For every descriptor on the read path of `close` whose GET had already
signaled completion with an `ECANCELED` failure, `close` issues no abort,
suppresses the failure, returns success and releases the descriptor; had the GET
completed with another failure code, `close` fails with that code. -/
theorem close_suppresses_earlier_cancel (env : Env) (desc : GridFTPFileDesc)
    (hro : is_read_only desc.open_flags = true) (hwo : is_write_only desc.open_flags = false)
    (hdone : desc.request.done = true) :
    Event.client_abort ∉ (GridFTPModule.close env (some desc)).trace ∧
    (desc.request.error = some ECANCELED →
      (GridFTPModule.close env (some desc)).ret = .ok 0 ∧
      (GridFTPModule.close env (some desc)).desc = none) ∧
    (∀ code, code ≠ ECANCELED → desc.request.error = some code →
      (GridFTPModule.close env (some desc)).ret = .error (.exception .CLOSE code)) := by
  obtain ⟨habort, -, hcancel, hother⟩ := close_read_path env desc hro hwo
  have hw := (wait_done env .CLOSE desc.request hdone).1
  refine ⟨?_, ?_, ?_⟩
  · intro hmem
    rw [habort.1 hmem] at hdone
    cases hdone
  · intro herr
    rw [herr] at hw
    exact hcancel hw
  · intro code hne herr
    rw [herr] at hw
    exact hother code hne hw

/-- Witness of C8 as amended: a read-only descriptor whose GET was cancelled by
the peer before `close`. -/
theorem close_suppresses_earlier_cancel_witness :
    is_read_only (completed_desc O_RDONLY (some ECANCELED)).open_flags = true ∧
    is_write_only (completed_desc O_RDONLY (some ECANCELED)).open_flags = false ∧
    (completed_desc O_RDONLY (some ECANCELED)).request.done = true ∧
    (completed_desc O_RDONLY (some ECANCELED)).request.error = some ECANCELED ∧
    (GridFTPModule.close (env_moving 0) (some (completed_desc O_RDONLY (some ECANCELED)))).ret =
      .ok 0 :=
  ⟨rfl, rfl, rfl, rfl,
    ((close_suppresses_earlier_cancel (env_moving 0) (completed_desc O_RDONLY (some ECANCELED))
      rfl rfl rfl).2.1 rfl).1⟩

/-- C8 refuted as stated: on a read-only descriptor whose GET had completed with
`ECANCELED` before `close` was called, `close` issues no abort and still returns
success instead of reporting the failure. -/
theorem close_swallows_peer_cancel :
    is_read_only (completed_desc O_RDONLY (some ECANCELED)).open_flags = true ∧
    (completed_desc O_RDONLY (some ECANCELED)).request =
      { done := true, error := some ECANCELED } ∧
    Event.client_abort ∉
      (GridFTPModule.close (env_moving 0)
        (some (completed_desc O_RDONLY (some ECANCELED)))).trace ∧
    (GridFTPModule.close (env_moving 0) (some (completed_desc O_RDONLY (some ECANCELED)))).ret =
      .ok 0 := by
  refine ⟨rfl, rfl, ?_, rfl⟩
  decide

/-- C9, the code at the failing inputs: when the wait for the pending GET fails
with a code other than `ECANCELED`, and when the terminal write of a PUT fails,
`close` reports the failure and the descriptor is still allocated: neither the
handle nor the stream, request and session have been released. -/
theorem close_failure_leaves_descriptor :
    (GridFTPModule.close (env_completing ECONNRESET) (some (sample_desc O_RDONLY))).ret =
      .error (.exception .CLOSE ECONNRESET) ∧
    (GridFTPModule.close (env_completing ECONNRESET) (some (sample_desc O_RDONLY))).desc ≠ none ∧
    (GridFTPModule.close (env_completing ECONNRESET) (some (sample_desc O_RDONLY))).trace =
      [Event.client_abort, Event.wait .CLOSE] ∧
    (GridFTPModule.close (env_transfer_failing ECONNRESET) (some (sample_desc O_WRONLY))).ret =
      .error (.exception .WRITE ECONNRESET) ∧
    (GridFTPModule.close (env_transfer_failing ECONNRESET) (some (sample_desc O_WRONLY))).desc =
      some (sample_desc O_WRONLY) ∧
    (GridFTPModule.close (env_transfer_failing ECONNRESET) (some (sample_desc O_WRONLY))).trace =
      [Event.write_stream .main 0 true] ∧
    (GridFTPModule.close (env_moving 0) (some (sample_desc O_RDONLY))).desc = none ∧
    (GridFTPModule.close (env_moving 0) (some (sample_desc O_RDONLY))).trace =
      [Event.client_abort, Event.wait .CLOSE, Event.handle_delete, Event.delete_stream,
       Event.delete_request, Event.delete_handler] := by
  refine ⟨rfl, ?_, rfl, rfl, rfl, rfl, rfl, rfl⟩
  decide

/-! ## `checksum` -/

/-- C10: for every URL, algorithm, start offset and length, `checksum` with a
buffer length below 16 fails with `ENOBUFS` and issues no checksum request (nor
starts the request at all); with a buffer length of 16 or more the buffer check
lets the call through: the checksum request is issued, and the call succeeds
when the protocol layer reports no failure. -/
theorem checksum_buffer_check (env : Env) (url check_type : String) (buffer_length : Nat)
    (start_offset : Int) (data_length : Nat) :
    (buffer_length < 16 →
      (GridftpModule.checksum env url check_type buffer_length start_offset data_length).ret =
        .error (.exception .CHECKSUM ENOBUFS) ∧
      (∀ e ∈ (GridftpModule.checksum env url check_type buffer_length start_offset
          data_length).trace, e.is_cksm = false ∧ e ≠ Event.req_start)) ∧
    (16 ≤ buffer_length →
      (∃ e ∈ (GridftpModule.checksum env url check_type buffer_length start_offset
          data_length).trace, e.is_cksm = true) ∧
      (env.start_result = none → env.completion = none →
        (GridftpModule.checksum env url check_type buffer_length start_offset
          data_length).ret = .ok ())) := by
  constructor
  · intro hlt
    unfold GridftpModule.checksum
    rw [if_pos hlt]
    refine ⟨rfl, ?_⟩
    intro e he
    rw [List.mem_singleton] at he
    subst he
    exact ⟨rfl, by simp⟩
  · intro hge
    have hnot : ¬ buffer_length < 16 := Nat.not_lt.mpr hge
    unfold GridftpModule.checksum
    simp only [hnot, if_false]
    constructor
    · refine ⟨Event.client_cksm url start_offset
        (to_globus_off_t (if data_length != 0 then (data_length : Int) else -1))
        check_type, ?_, rfl⟩
      unfold gfal_globus_check_result
      repeat' split
      all_goals simp
    · intro hst hco
      simp only [hst, hco, gfal_globus_check_result]

/-- Witness of C10: a buffer of 15 bytes is refused, a buffer of 16 bytes is not. -/
theorem checksum_buffer_check_witness :
    (GridftpModule.checksum (env_moving 0) "gsiftp://host/f" "ADLER32" 15 0 0).ret =
      .error (.exception .CHECKSUM ENOBUFS) ∧
    (GridftpModule.checksum (env_moving 0) "gsiftp://host/f" "ADLER32" 16 0 0).ret = .ok () :=
  ⟨((checksum_buffer_check (env_moving 0) "gsiftp://host/f" "ADLER32" 15 0 0).1
      (by decide)).1,
    ((checksum_buffer_check (env_moving 0) "gsiftp://host/f" "ADLER32" 16 0 0).2
      (by decide)).2 rfl rfl⟩

/-! ## Stream alignment -/

theorem open_ok_desc (env : Env) (url : String) (flag : Nat) (d : GridFTPFileDesc)
    (h : (GridFTPModule.open env url flag).ret = .ok d) :
    d.current_offset = 0 ∧ d.open_flags = flag ∧ d.url = url ∧
    d.request = GridFTPRequestState.new ∧
    (d.stream = some GridFTPStreamState.new ∨ d.stream = none) ∧
    (d.stream = none ↔ (is_read_only flag = false ∧ is_write_only flag = false)) ∧
    (Event.client_get url ∈ (GridFTPModule.open env url flag).trace ↔
      is_read_only flag = true) ∧
    (Event.client_put url ∈ (GridFTPModule.open env url flag).trace ↔
      (is_read_only flag = false ∧ is_write_only flag = true)) := by
  unfold GridFTPModule.open at h ⊢
  cases hro : is_read_only flag <;> cases hwo : is_write_only flag <;>
    cases hst : env.start_result <;>
    rcases hex : env.file_exists with e | (_ | _) <;>
    simp only [hro, hwo, hst, hex, gfal_globus_check_result, Bool.false_eq_true, if_false,
      if_true] at h ⊢ <;>
    cases h <;>
    simp [GridFTPFileDesc.reset, GridFTPStreamState.new]

theorem read_live_aligned (env : Env) (desc : GridFTPFileDesc) (count n : Nat)
    (s : GridFTPStreamState) (hs : desc.stream = some s)
    (hoff : desc.current_offset = s.offset) (hro : is_read_only desc.open_flags = true)
    (h : (GridFTPModule.read env desc count).ret = .ok n) :
    (GridFTPModule.read env desc count).desc.is_not_seeked = true ∧
    (∃ s1, (GridFTPModule.read env desc count).desc.stream = some s1 ∧
      s1.offset = s.offset + n) := by
  rw [read_live env desc count s hs hoff hro] at h ⊢
  unfold gridftp_read_stream at h ⊢
  cases ht : env.transfer with
  | error c => simp [ht] at h
  | ok p =>
    obtain ⟨m, eof⟩ := p
    simp only [ht, Except.ok.injEq] at h ⊢
    subst h
    exact ⟨by simp [GridFTPFileDesc.is_not_seeked, hoff], _, rfl, rfl⟩

theorem write_live_aligned (env : Env) (desc : GridFTPFileDesc) (count n : Nat)
    (s : GridFTPStreamState) (hs : desc.stream = some s)
    (hoff : desc.current_offset = s.offset) (hwo : is_write_only desc.open_flags = true)
    (h : (GridFTPModule.write env desc count).ret = .ok n) :
    (GridFTPModule.write env desc count).desc.is_not_seeked = true ∧
    (∃ s1, (GridFTPModule.write env desc count).desc.stream = some s1 ∧
      s1.offset = s.offset + n) := by
  rw [write_live env desc count s hs hoff hwo] at h ⊢
  unfold gridftp_write_stream at h ⊢
  cases ht : env.transfer with
  | error c => simp [ht] at h
  | ok p =>
    obtain ⟨m, eof⟩ := p
    simp only [ht, Except.ok.injEq] at h ⊢
    subst h
    exact ⟨by simp [GridFTPFileDesc.is_not_seeked, hoff], _, rfl, rfl⟩

theorem read_fallback_aligned (env : Env) (desc : GridFTPFileDesc) (count n : Nat)
    (hal : desc.is_not_seeked = true) (hro : is_read_only desc.open_flags = false)
    (h : (GridFTPModule.read env desc count).ret = .ok n) :
    ((GridFTPModule.read env desc count).desc.is_not_seeked = true ↔ n = 0) := by
  obtain ⟨s, hs, hoff⟩ := (is_not_seeked_iff desc).1 hal
  have hc : ¬ ∃ s, desc.stream = some s ∧ desc.current_offset = s.offset ∧
      is_read_only desc.open_flags = true := by
    rintro ⟨_, -, -, h3⟩
    rw [hro] at h3
    cases h3
  have hcur := (read_ok_cursor env desc count n h).1
  have hst := (read_fallback_stream env desc count hc).1
  rw [is_not_seeked_iff]
  constructor
  · rintro ⟨s1, hs1, hoff1⟩
    rw [hst, hs] at hs1
    cases hs1
    rw [hcur, hoff] at hoff1
    omega
  · intro hn
    subst hn
    exact ⟨s, by rw [hst, hs], by rw [hcur, hoff]; simp⟩

theorem write_fallback_aligned (env : Env) (desc : GridFTPFileDesc) (count n : Nat)
    (hal : desc.is_not_seeked = true) (hwo : is_write_only desc.open_flags = false)
    (h : (GridFTPModule.write env desc count).ret = .ok n) :
    ((GridFTPModule.write env desc count).desc.is_not_seeked = true ↔ n = 0) := by
  obtain ⟨s, hs, hoff⟩ := (is_not_seeked_iff desc).1 hal
  have hc : ¬ ∃ s, desc.stream = some s ∧ desc.current_offset = s.offset ∧
      is_write_only desc.open_flags = true := by
    rintro ⟨_, -, -, h3⟩
    rw [hwo] at h3
    cases h3
  have hcur := (write_ok_cursor env desc count n h).1
  have hst := (write_fallback_stream env desc count hc).1
  rw [is_not_seeked_iff]
  constructor
  · rintro ⟨s1, hs1, hoff1⟩
    rw [hst, hs] at hs1
    cases hs1
    rw [hcur, hoff] at hoff1
    omega
  · intro hn
    subst hn
    exact ⟨s, by rw [hst, hs], by rw [hcur, hoff]; simp⟩

theorem read_error_desc (env : Env) (desc : GridFTPFileDesc) (count : Nat) (e : Failure)
    (h : (GridFTPModule.read env desc count).ret = .error e) :
    (GridFTPModule.read env desc count).desc = desc := by
  by_cases hc : ∃ s, desc.stream = some s ∧ desc.current_offset = s.offset ∧
      is_read_only desc.open_flags = true
  · obtain ⟨s, hs, hoff, hro⟩ := hc
    rw [read_live env desc count s hs hoff hro] at h ⊢
    split
    · rfl
    · rename_i heq
      rw [heq] at h
      cases h
  · rw [read_fallback env desc count hc] at h ⊢
    split
    · rfl
    · rename_i heq
      rw [heq] at h
      cases h

theorem write_error_desc (env : Env) (desc : GridFTPFileDesc) (count : Nat) (e : Failure)
    (h : (GridFTPModule.write env desc count).ret = .error e) :
    (GridFTPModule.write env desc count).desc = desc := by
  by_cases hc : ∃ s, desc.stream = some s ∧ desc.current_offset = s.offset ∧
      is_write_only desc.open_flags = true
  · obtain ⟨s, hs, hoff, hwo⟩ := hc
    rw [write_live env desc count s hs hoff hwo] at h ⊢
    split
    · rfl
    · rename_i heq
      rw [heq] at h
      cases h
  · rw [write_fallback env desc count hc] at h ⊢
    split
    · rfl
    · rename_i heq
      rw [heq] at h
      cases h

theorem lseek_aligned (desc : GridFTPFileDesc) (s : GridFTPStreamState)
    (hs : desc.stream = some s) (offset whence v : Int)
    (h : (GridFTPModule.lseek desc offset whence).ret = .ok v) :
    (GridFTPModule.lseek desc offset whence).desc.current_offset = v ∧
    ((GridFTPModule.lseek desc offset whence).desc.is_not_seeked = false ↔ v ≠ s.offset) := by
  unfold GridFTPModule.lseek at h ⊢
  split at h
  · rename_i hw
    simp only [Except.ok.injEq] at h
    subst h
    simp [hw, GridFTPFileDesc.is_not_seeked, hs]
  · split at h
    · rename_i hw1 hw2
      simp only [Except.ok.injEq] at h
      subst h
      have hne : ¬ SEEK_CUR = SEEK_SET := by decide
      subst hw2
      simp [hne, GridFTPFileDesc.is_not_seeked, hs]
    · cases h

theorem read_served_live (env : Env) (desc : GridFTPFileDesc) (count : Nat)
    (h : (GridFTPModule.read env desc count).trace = [Event.read_stream .main count]) :
    ∃ s, desc.stream = some s ∧ desc.current_offset = s.offset ∧
      is_read_only desc.open_flags = true := by
  by_contra hc
  obtain ⟨rest, hrest, -⟩ := internal_pread_trace env desc count desc.current_offset
  rw [read_fallback env desc count hc] at h
  have ht : (gridftp_rw_internal_pread env desc count desc.current_offset).trace =
      [Event.read_stream .main count] := by
    split at h <;> exact h
  rw [hrest] at ht
  simp at ht

theorem write_served_live (env : Env) (desc : GridFTPFileDesc) (count : Nat)
    (h : (GridFTPModule.write env desc count).trace = [Event.write_stream .main count false]) :
    ∃ s, desc.stream = some s ∧ desc.current_offset = s.offset ∧
      is_write_only desc.open_flags = true := by
  by_contra hc
  obtain ⟨rest, hrest, -⟩ := internal_pwrite_trace env desc count desc.current_offset
  rw [write_fallback env desc count hc] at h
  have ht : (gridftp_rw_internal_pwrite env desc count desc.current_offset).trace =
      [Event.write_stream .main count false] := by
    split at h <;> exact h
  rw [hrest] at ht
  simp at ht

theorem write_live_trace (env : Env) (desc : GridFTPFileDesc) (count : Nat)
    (hal : desc.is_not_seeked = true) (hwo : is_write_only desc.open_flags = true) :
    (GridFTPModule.write env desc count).trace = [Event.write_stream .main count false] := by
  obtain ⟨s, hs, hoff⟩ := (is_not_seeked_iff desc).1 hal
  rw [write_live env desc count s hs hoff hwo]
  split <;> rfl

theorem alignment_lost (op : DescOp) (desc : GridFTPFileDesc)
    (hal : desc.is_not_seeked = true) (hlost : (op.apply desc).is_not_seeked = false) :
    (∃ offset whence, op = .lseek offset whence) ∨
    (∃ env count m, op = .read env count ∧ is_read_only desc.open_flags = false ∧
      (GridFTPModule.read env desc count).ret = .ok m ∧ 0 < m) ∨
    (∃ env count m, op = .write env count ∧ is_write_only desc.open_flags = false ∧
      (GridFTPModule.write env desc count).ret = .ok m ∧ 0 < m) := by
  obtain ⟨s, hs, hoff⟩ := (is_not_seeked_iff desc).1 hal
  cases op with
  | lseek offset whence => exact Or.inl ⟨offset, whence, rfl⟩
  | pread env count offset =>
    simp only [DescOp.apply, GridFTPModule.pread, internal_pread_desc] at hlost
    rw [hal] at hlost
    cases hlost
  | pwrite env count offset =>
    simp only [DescOp.apply, GridFTPModule.pwrite, internal_pwrite_desc] at hlost
    rw [hal] at hlost
    cases hlost
  | read env count =>
    simp only [DescOp.apply] at hlost
    refine Or.inr (Or.inl ?_)
    cases hr : (GridFTPModule.read env desc count).ret with
    | error e =>
      rw [read_error_desc env desc count e hr, hal] at hlost
      cases hlost
    | ok m =>
      cases hro : is_read_only desc.open_flags with
      | true =>
        rw [(read_live_aligned env desc count m s hs hoff hro hr).1] at hlost
        cases hlost
      | false =>
        refine ⟨env, count, m, rfl, rfl, hr, ?_⟩
        rcases Nat.eq_zero_or_pos m with h0 | hpos
        · rw [(read_fallback_aligned env desc count m hal hro hr).2 h0] at hlost
          cases hlost
        · exact hpos
  | write env count =>
    simp only [DescOp.apply] at hlost
    refine Or.inr (Or.inr ?_)
    cases hr : (GridFTPModule.write env desc count).ret with
    | error e =>
      rw [write_error_desc env desc count e hr, hal] at hlost
      cases hlost
    | ok m =>
      cases hwo : is_write_only desc.open_flags with
      | true =>
        rw [(write_live_aligned env desc count m s hs hoff hwo hr).1] at hlost
        cases hlost
      | false =>
        refine ⟨env, count, m, rfl, rfl, hr, ?_⟩
        rcases Nat.eq_zero_or_pos m with h0 | hpos
        · rw [(write_fallback_aligned env desc count m hal hwo hr).2 h0] at hlost
          cases hlost
        · exact hpos

/-- C11, as amended: stream alignment is broken only by `lseek` or by a successful
`read` or `write` that is not served from the live stream (its direction does not
match the open flags, so it takes the positional route) and moves at least one
byte. On every descriptor on which `open` started a GET or a PUT,
`is_not_seeked` is true right after `open`, with stream offset 0 and cursor 0;
every successful `read` or `write` served from the live stream leaves it true;
a successful `lseek` leaves it false exactly when the new cursor differs from
the stream's offset; and two successful writes of 2 bytes on an `O_WRONLY`
descriptor are both served by the one PUT stream. -/
theorem stream_alignment (env : Env) (desc : GridFTPFileDesc) (count n : Nat) :
    (∀ (url : String) (flag : Nat) (d : GridFTPFileDesc),
      (GridFTPModule.open env url flag).ret = .ok d →
      (Event.client_get url ∈ (GridFTPModule.open env url flag).trace ∨
        Event.client_put url ∈ (GridFTPModule.open env url flag).trace) →
      d.is_not_seeked = true ∧ d.current_offset = 0 ∧
        d.stream = some { offset := 0, eof := false }) ∧
    ((GridFTPModule.read env desc count).trace = [Event.read_stream .main count] →
      (GridFTPModule.read env desc count).ret = .ok n →
      (GridFTPModule.read env desc count).desc.is_not_seeked = true) ∧
    ((GridFTPModule.write env desc count).trace = [Event.write_stream .main count false] →
      (GridFTPModule.write env desc count).ret = .ok n →
      (GridFTPModule.write env desc count).desc.is_not_seeked = true) ∧
    (∀ (s : GridFTPStreamState) (offset whence v : Int), desc.stream = some s →
      (GridFTPModule.lseek desc offset whence).ret = .ok v →
      (GridFTPModule.lseek desc offset whence).desc.current_offset = v ∧
      ((GridFTPModule.lseek desc offset whence).desc.is_not_seeked = false ↔ v ≠ s.offset)) ∧
    (∀ op : DescOp, desc.is_not_seeked = true → (op.apply desc).is_not_seeked = false →
      (∃ offset whence, op = .lseek offset whence) ∨
      (∃ env1 count1 m, op = .read env1 count1 ∧ is_read_only desc.open_flags = false ∧
        (GridFTPModule.read env1 desc count1).ret = .ok m ∧ 0 < m) ∨
      (∃ env1 count1 m, op = .write env1 count1 ∧ is_write_only desc.open_flags = false ∧
        (GridFTPModule.write env1 desc count1).ret = .ok m ∧ 0 < m)) ∧
    (∀ (env1 env2 : Env) (url : String) (d : GridFTPFileDesc) (n1 n2 : Nat),
      (GridFTPModule.open env url O_WRONLY).ret = .ok d →
      (GridFTPModule.write env1 d 2).ret = .ok n1 →
      (GridFTPModule.write env2 (GridFTPModule.write env1 d 2).desc 2).ret = .ok n2 →
      (GridFTPModule.write env1 d 2).trace = [Event.write_stream .main 2 false] ∧
      (GridFTPModule.write env2 (GridFTPModule.write env1 d 2).desc 2).trace =
        [Event.write_stream .main 2 false] ∧
      (GridFTPModule.write env2 (GridFTPModule.write env1 d 2).desc 2).desc.is_not_seeked =
        true ∧
      (GridFTPModule.write env2 (GridFTPModule.write env1 d 2).desc 2).desc.current_offset =
        n1 + n2) := by
  refine ⟨?_, ?_, ?_, ?_, ?_, ?_⟩
  · intro url flag d hok hstart
    obtain ⟨hcur, -, -, -, hst, hnone, hget, hput⟩ := open_ok_desc env url flag d hok
    have hsome : d.stream = some GridFTPStreamState.new := by
      rcases hst with h | h
      · exact h
      · have hboth := hnone.1 h
        rcases hstart with hg | hp
        · rw [hget.1 hg] at hboth
          cases hboth.1
        · rw [(hput.1 hp).2] at hboth
          cases hboth.2
    refine ⟨?_, hcur, hsome⟩
    rw [is_not_seeked_iff]
    exact ⟨_, hsome, by rw [hcur]; rfl⟩
  · intro htr hok
    obtain ⟨s, hs, hoff, hro⟩ := read_served_live env desc count htr
    exact (read_live_aligned env desc count n s hs hoff hro hok).1
  · intro htr hok
    obtain ⟨s, hs, hoff, hwo⟩ := write_served_live env desc count htr
    exact (write_live_aligned env desc count n s hs hoff hwo hok).1
  · intro s offset whence v hs hok
    exact lseek_aligned desc s hs offset whence v hok
  · intro op hal hlost
    exact alignment_lost op desc hal hlost
  · intro env1 env2 url d n1 n2 hopen hw1 hw2
    obtain ⟨hcur, hflag, -, -, hst, hnone, -, -⟩ := open_ok_desc env url O_WRONLY d hopen
    have hwo : is_write_only d.open_flags = true := by rw [hflag]; rfl
    have hsome : d.stream = some GridFTPStreamState.new := by
      rcases hst with h | h
      · exact h
      · have := (hnone.1 h).2
        cases this
    have hoff : d.current_offset = GridFTPStreamState.new.offset := by rw [hcur]; rfl
    have hal : d.is_not_seeked = true := (is_not_seeked_iff d).2 ⟨_, hsome, hoff⟩
    have hal1 := (write_live_aligned env1 d 2 n1 _ hsome hoff hwo hw1).1
    have hflag1 : (GridFTPModule.write env1 d 2).desc.open_flags = d.open_flags := by
      rw [write_live env1 d 2 _ hsome hoff hwo]
      split <;> rfl
    have hwo1 : is_write_only (GridFTPModule.write env1 d 2).desc.open_flags = true := by
      rw [hflag1]; exact hwo
    obtain ⟨s1, hs1, hoff1⟩ := (is_not_seeked_iff _).1 hal1
    refine ⟨write_live_trace env1 d 2 hal hwo, write_live_trace env2 _ 2 hal1 hwo1,
      (write_live_aligned env2 _ 2 n2 s1 hs1 hoff1 hwo1 hw2).1, ?_⟩
    rw [(write_ok_cursor env2 _ 2 n2 hw2).1, (write_ok_cursor env1 d 2 n1 hw1).1, hcur]
    ring

/-- Witness of C11 as amended: `open` with `O_WRONLY`, then two writes of 2 bytes,
and a seek to 100 on the descriptor `open` hands back. -/
theorem stream_alignment_witness :
    (GridFTPModule.open (env_moving 2) "gsiftp://host/f" O_WRONLY).ret =
      .ok (sample_desc O_WRONLY) ∧
    (sample_desc O_WRONLY).is_not_seeked = true ∧
    (GridFTPModule.write (env_moving 2) (sample_desc O_WRONLY) 2).desc.is_not_seeked = true ∧
    (GridFTPModule.write (env_moving 2)
      (GridFTPModule.write (env_moving 2) (sample_desc O_WRONLY) 2).desc 2).desc.current_offset =
        4 ∧
    (GridFTPModule.lseek (sample_desc O_WRONLY) 100 SEEK_SET).desc.is_not_seeked = false := by
  have key := stream_alignment (env_moving 2) (sample_desc O_WRONLY) 2 2
  have hopen : (GridFTPModule.open (env_moving 2) "gsiftp://host/f" O_WRONLY).ret =
      .ok (sample_desc O_WRONLY) := rfl
  refine ⟨hopen, ?_, ?_, ?_, ?_⟩
  · exact (key.1 "gsiftp://host/f" O_WRONLY _ hopen (Or.inr (by decide))).1
  · exact key.2.2.1 rfl rfl
  · have h := (key.2.2.2.2.2 (env_moving 2) (env_moving 2) "gsiftp://host/f" _ 2 2
      hopen rfl rfl).2.2.2
    simpa using h
  · exact ((key.2.2.2.1 GridFTPStreamState.new 100 SEEK_SET 100 rfl rfl).2).2 (by decide)

/-- C11 refuted as stated: on the descriptor `open` hands back for `O_RDONLY`, with
its GET started and `is_not_seeked` true, a successful `write` of 2 bytes takes
the positional route and advances the cursor to 2 while the stream offset stays
0: `is_not_seeked` has become false and no `lseek` was called. -/
theorem alignment_broken_by_write :
    (GridFTPModule.open (env_moving 2) "gsiftp://host/f" O_RDONLY).ret =
      .ok (sample_desc O_RDONLY) ∧
    Event.client_get "gsiftp://host/f" ∈
      (GridFTPModule.open (env_moving 2) "gsiftp://host/f" O_RDONLY).trace ∧
    (sample_desc O_RDONLY).is_not_seeked = true ∧
    (GridFTPModule.write (env_moving 2) (sample_desc O_RDONLY) 2).ret = .ok 2 ∧
    (GridFTPModule.write (env_moving 2) (sample_desc O_RDONLY) 2).desc.current_offset = 2 ∧
    (GridFTPModule.write (env_moving 2) (sample_desc O_RDONLY) 2).desc.stream =
      some { offset := 0, eof := false } ∧
    (GridFTPModule.write (env_moving 2) (sample_desc O_RDONLY) 2).desc.is_not_seeked = false := by
  refine ⟨rfl, ?_, rfl, rfl, rfl, rfl, rfl⟩
  decide

/-! ## Direction of the stream in `open` and in `close` -/

theorem flags_both_iff (flag : Nat) :
    (is_read_only flag = true ∧ is_write_only flag = true) ↔
      (flag &&& O_ACCMODE = 0 ∧ flag &&& O_CREAT ≠ 0) := by
  rw [is_read_only_iff, is_write_only_iff]
  constructor
  · rintro ⟨hacc, hw⟩
    refine ⟨hacc, ?_⟩
    rcases hw with hw | hw
    · exfalso
      apply hw
      have h : flag &&& O_WRONLY = (flag &&& O_ACCMODE) &&& O_WRONLY := by
        rw [Nat.and_assoc]
        rfl
      rw [h, hacc]
      rfl
    · exact hw
  · rintro ⟨hacc, hc⟩
    exact ⟨hacc, Or.inr hc⟩

theorem commit_put_cases (env : Env) (desc : GridFTPFileDesc) :
    (is_write_only desc.open_flags = false ∧
      gridftp_rw_commit_put env desc = { ret := .ok 0, desc := desc, trace := [] }) ∨
    (is_write_only desc.open_flags = true ∧ desc.stream = none ∧
      gridftp_rw_commit_put env desc =
        { ret := .error .null_stream, desc := desc, trace := [] }) ∨
    (is_write_only desc.open_flags = true ∧ desc.stream ≠ none ∧
      (gridftp_rw_commit_put env desc).trace = [Event.write_stream .main 0 true] ∧
      (gridftp_rw_commit_put env desc).desc.open_flags = desc.open_flags) := by
  unfold gridftp_rw_commit_put
  cases hwo : is_write_only desc.open_flags
  · exact Or.inl ⟨rfl, by simp⟩
  · refine Or.inr ?_
    cases hs : desc.stream with
    | none => exact Or.inl ⟨rfl, rfl, by simp⟩
    | some s =>
      refine Or.inr ⟨rfl, by simp, ?_⟩
      simp only [if_true]
      split <;> exact ⟨rfl, rfl⟩

theorem close_terminal_write_commit (env : Env) (desc : GridFTPFileDesc) :
    Event.write_stream .main 0 true ∈ (GridFTPModule.close env (some desc)).trace ↔
      Event.write_stream .main 0 true ∈ (gridftp_rw_commit_put env desc).trace := by
  have hdestroy : ∀ d : GridFTPFileDesc, Event.write_stream .main 0 true ∉ d.destroy := by
    intro d
    unfold GridFTPFileDesc.destroy
    split <;> simp
  unfold GridFTPModule.close
  simp only
  repeat' split
  all_goals simp [close_release, hdestroy]

theorem close_terminal_write (env : Env) (desc : GridFTPFileDesc) :
    Event.write_stream .main 0 true ∈ (GridFTPModule.close env (some desc)).trace ↔
      (is_write_only desc.open_flags = true ∧ desc.stream ≠ none) := by
  rw [close_terminal_write_commit]
  rcases commit_put_cases env desc with ⟨hwo, hc⟩ | ⟨hwo, hs, hc⟩ | ⟨hwo, hs, hc, -⟩
  · rw [hc, hwo]
    simp
  · rw [hc, hwo, hs]
    simp
  · rw [hc, hwo]
    simp [hs]

/-- For every flags value and every descriptor `open` hands back: `close` issues
the terminal write exactly when `open` started a PUT, unless `is_read_only` and
`is_write_only` both hold of the flags; then `open` has started a GET and `close`
issues the terminal write all the same. -/
theorem open_close_direction (env env1 : Env) (url : String) (flag : Nat)
    (d : GridFTPFileDesc) (hok : (GridFTPModule.open env url flag).ret = .ok d) :
    ((Event.write_stream .main 0 true ∈ (GridFTPModule.close env1 (some d)).trace ↔
        Event.client_put url ∈ (GridFTPModule.open env url flag).trace) ↔
      ¬ (is_read_only flag = true ∧ is_write_only flag = true)) := by
  obtain ⟨-, hflag, -, -, -, hnone, -, hput⟩ := open_ok_desc env url flag d hok
  rw [close_terminal_write, hput, hflag]
  cases hro : is_read_only flag <;> cases hwo : is_write_only flag <;>
    simp [hro, hwo] at hnone ⊢
  · exact hnone
  · exact hnone

/-- C12, the code at the failing input: of the flags `O_CREAT` (no `O_WRONLY`, no
`O_RDWR`) both `is_read_only` and `is_write_only` hold; `open` starts a GET and no
PUT, and `close` on the descriptor it hands back, with the GET completed or still
pending, issues the terminal zero-length write of the PUT path on that stream and
waits without taking the abort path. -/
theorem open_close_disagree_on_creat :
    is_read_only O_CREAT = true ∧ is_write_only O_CREAT = true ∧
    (GridFTPModule.open (env_moving 0) "gsiftp://host/f" O_CREAT).ret =
      .ok (sample_desc O_CREAT) ∧
    Event.client_get "gsiftp://host/f" ∈
      (GridFTPModule.open (env_moving 0) "gsiftp://host/f" O_CREAT).trace ∧
    Event.client_put "gsiftp://host/f" ∉
      (GridFTPModule.open (env_moving 0) "gsiftp://host/f" O_CREAT).trace ∧
    (GridFTPModule.close (env_moving 0) (some (completed_desc O_CREAT none))).trace =
      [Event.write_stream .main 0 true, Event.wait .CLOSE, Event.handle_delete,
       Event.delete_stream, Event.delete_request, Event.delete_handler] ∧
    Event.write_stream .main 0 true ∈
      (GridFTPModule.close (env_moving 0) (some (sample_desc O_CREAT))).trace ∧
    Event.client_abort ∉
      (GridFTPModule.close (env_moving 0) (some (sample_desc O_CREAT))).trace := by
  refine ⟨rfl, rfl, rfl, ?_, ?_, rfl, ?_, ?_⟩ <;> decide

/-! ## The positioned sub-operations, step by step -/

theorem range_end_eq (offset : Int) (s_buff : Nat)
    (hlo : -(2 ^ 63) ≤ offset + s_buff) (hhi : offset + s_buff < 2 ^ 63) :
    range_end offset s_buff = offset + s_buff := by
  unfold range_end to_globus_off_t
  split <;> omega

theorem internal_pread_steps (env : Env) (desc : GridFTPFileDesc) (s_buff : Nat)
    (offset : Int) :
    (∀ c, env.start_result = some c →
      gridftp_rw_internal_pread env desc s_buff offset =
        { ret := .error (.exception .INTERNAL_PREAD c), desc := desc,
          trace := [Event.session_new desc.url,
            Event.client_partial_get desc.url offset (range_end offset s_buff)] }) ∧
    (∀ c, env.start_result = none → env.transfer = .error c →
      gridftp_rw_internal_pread env desc s_buff offset =
        { ret := .error (.exception .INTERNAL_PREAD c), desc := desc,
          trace := [Event.session_new desc.url,
            Event.client_partial_get desc.url offset (range_end offset s_buff),
            Event.read_stream .scratch s_buff] }) ∧
    (∀ n eof c, env.start_result = none → env.transfer = .ok (n, eof) →
      env.completion = some c →
      gridftp_rw_internal_pread env desc s_buff offset =
        { ret := .error (.exception .INTERNAL_PREAD c), desc := desc,
          trace := [Event.session_new desc.url,
            Event.client_partial_get desc.url offset (range_end offset s_buff),
            Event.read_stream .scratch s_buff, Event.wait .INTERNAL_PREAD] }) ∧
    (∀ n eof, env.start_result = none → env.transfer = .ok (n, eof) →
      env.completion = none →
      gridftp_rw_internal_pread env desc s_buff offset =
        { ret := .ok n, desc := desc,
          trace := [Event.session_new desc.url,
            Event.client_partial_get desc.url offset (range_end offset s_buff),
            Event.read_stream .scratch s_buff, Event.wait .INTERNAL_PREAD] }) := by
  refine ⟨?_, ?_, ?_, ?_⟩
  · intro c hst
    simp [gridftp_rw_internal_pread, gfal_globus_check_result, hst]
  · intro c hst htr
    simp [gridftp_rw_internal_pread, gfal_globus_check_result, gridftp_read_stream, hst, htr]
  · intro n eof c hst htr hco
    simp [gridftp_rw_internal_pread, gfal_globus_check_result, gridftp_read_stream,
      GridFTPRequestState.wait, GridFTPRequestState.new, hst, htr, hco]
  · intro n eof hst htr hco
    simp [gridftp_rw_internal_pread, gfal_globus_check_result, gridftp_read_stream,
      GridFTPRequestState.wait, GridFTPRequestState.new, hst, htr, hco]

theorem internal_pwrite_steps (env : Env) (desc : GridFTPFileDesc) (s_buff : Nat)
    (offset : Int) :
    (∀ c, env.start_result = some c →
      gridftp_rw_internal_pwrite env desc s_buff offset =
        { ret := .error (.exception .INTERNAL_PWRITE c), desc := desc,
          trace := [Event.session_new desc.url,
            Event.client_partial_put desc.url offset (range_end offset s_buff)] }) ∧
    (∀ c, env.start_result = none → env.transfer = .error c →
      gridftp_rw_internal_pwrite env desc s_buff offset =
        { ret := .error (.exception .INTERNAL_PWRITE c), desc := desc,
          trace := [Event.session_new desc.url,
            Event.client_partial_put desc.url offset (range_end offset s_buff),
            Event.write_stream .scratch s_buff false] }) ∧
    (∀ n eof c, env.start_result = none → env.transfer = .ok (n, eof) →
      env.completion = some c →
      gridftp_rw_internal_pwrite env desc s_buff offset =
        { ret := .error (.exception .INTERNAL_PWRITE c), desc := desc,
          trace := [Event.session_new desc.url,
            Event.client_partial_put desc.url offset (range_end offset s_buff),
            Event.write_stream .scratch s_buff false, Event.wait .INTERNAL_PWRITE] }) ∧
    (∀ n eof, env.start_result = none → env.transfer = .ok (n, eof) →
      env.completion = none →
      gridftp_rw_internal_pwrite env desc s_buff offset =
        { ret := .ok n, desc := desc,
          trace := [Event.session_new desc.url,
            Event.client_partial_put desc.url offset (range_end offset s_buff),
            Event.write_stream .scratch s_buff false, Event.wait .INTERNAL_PWRITE] }) := by
  refine ⟨?_, ?_, ?_, ?_⟩
  · intro c hst
    simp [gridftp_rw_internal_pwrite, gfal_globus_check_result, hst]
  · intro c hst htr
    simp [gridftp_rw_internal_pwrite, gfal_globus_check_result, gridftp_write_stream, hst, htr]
  · intro n eof c hst htr hco
    simp [gridftp_rw_internal_pwrite, gfal_globus_check_result, gridftp_write_stream,
      GridFTPRequestState.wait, GridFTPRequestState.new, hst, htr, hco]
  · intro n eof hst htr hco
    simp [gridftp_rw_internal_pwrite, gfal_globus_check_result, gridftp_write_stream,
      GridFTPRequestState.wait, GridFTPRequestState.new, hst, htr, hco]

/-! ## Frame of the positioned operations -/

/-- C6, as amended: for every descriptor state, count and offset, `pread` and
`pwrite` run the positioned sub-operation at the caller's offset whatever the
stream alignment: a session of their own, a partial GET or PUT from `offset`,
the transfer of `count` bytes on a stream of their own, the wait for completion,
and the byte count moved as result (or the failure of the step that failed); they
leave the descriptor, its cursor and stream state included, exactly as it was.
The end of the range is `offset + count` whenever that sum is representable as a
64-bit signed offset. A `read` or `write` that takes the positional route is that
same sub-operation at the cursor and leaves the descriptor's stream state
unchanged; after `open` read-only, `lseek` to 100 and `read` of 10 the read has
gone to the range from 100 to 110 and the main stream offset is still 0. -/
theorem positioned_frame (env : Env) (desc : GridFTPFileDesc) (count : Nat) (offset : Int) :
    (GridFTPModule.pread env desc count offset).desc = desc ∧
    (GridFTPModule.pwrite env desc count offset).desc = desc ∧
    (-(2 ^ 63) ≤ offset + count → offset + count < 2 ^ 63 →
      range_end offset count = offset + count) ∧
    (∀ c, env.start_result = some c →
      (GridFTPModule.pread env desc count offset).ret =
        .error (.exception .INTERNAL_PREAD c) ∧
      (GridFTPModule.pread env desc count offset).trace =
        [Event.session_new desc.url,
         Event.client_partial_get desc.url offset (range_end offset count)] ∧
      (GridFTPModule.pwrite env desc count offset).ret =
        .error (.exception .INTERNAL_PWRITE c) ∧
      (GridFTPModule.pwrite env desc count offset).trace =
        [Event.session_new desc.url,
         Event.client_partial_put desc.url offset (range_end offset count)]) ∧
    (∀ c, env.start_result = none → env.transfer = .error c →
      (GridFTPModule.pread env desc count offset).ret =
        .error (.exception .INTERNAL_PREAD c) ∧
      (GridFTPModule.pread env desc count offset).trace =
        [Event.session_new desc.url,
         Event.client_partial_get desc.url offset (range_end offset count),
         Event.read_stream .scratch count] ∧
      (GridFTPModule.pwrite env desc count offset).ret =
        .error (.exception .INTERNAL_PWRITE c) ∧
      (GridFTPModule.pwrite env desc count offset).trace =
        [Event.session_new desc.url,
         Event.client_partial_put desc.url offset (range_end offset count),
         Event.write_stream .scratch count false]) ∧
    (∀ n eof, env.start_result = none → env.transfer = .ok (n, eof) →
      (GridFTPModule.pread env desc count offset).ret =
        (match env.completion with
          | none => .ok n
          | some c => .error (.exception .INTERNAL_PREAD c)) ∧
      (GridFTPModule.pread env desc count offset).trace =
        [Event.session_new desc.url,
         Event.client_partial_get desc.url offset (range_end offset count),
         Event.read_stream .scratch count, Event.wait .INTERNAL_PREAD] ∧
      (GridFTPModule.pwrite env desc count offset).ret =
        (match env.completion with
          | none => .ok n
          | some c => .error (.exception .INTERNAL_PWRITE c)) ∧
      (GridFTPModule.pwrite env desc count offset).trace =
        [Event.session_new desc.url,
         Event.client_partial_put desc.url offset (range_end offset count),
         Event.write_stream .scratch count false, Event.wait .INTERNAL_PWRITE]) ∧
    ((¬ ∃ s, desc.stream = some s ∧ desc.current_offset = s.offset ∧
        is_read_only desc.open_flags = true) →
      (GridFTPModule.read env desc count).desc.stream = desc.stream ∧
      (GridFTPModule.read env desc count).ret =
        (GridFTPModule.pread env desc count desc.current_offset).ret ∧
      (GridFTPModule.read env desc count).trace =
        (GridFTPModule.pread env desc count desc.current_offset).trace) ∧
    ((¬ ∃ s, desc.stream = some s ∧ desc.current_offset = s.offset ∧
        is_write_only desc.open_flags = true) →
      (GridFTPModule.write env desc count).desc.stream = desc.stream ∧
      (GridFTPModule.write env desc count).ret =
        (GridFTPModule.pwrite env desc count desc.current_offset).ret ∧
      (GridFTPModule.write env desc count).trace =
        (GridFTPModule.pwrite env desc count desc.current_offset).trace) ∧
    (∀ (env0 : Env) (url : String), env0.file_exists = .ok true → env0.start_result = none →
      ∃ d, (GridFTPModule.open env0 url O_RDONLY).ret = .ok d ∧
        d.stream = some { offset := 0, eof := false } ∧
        Event.client_partial_get url 100 110 ∈
          (GridFTPModule.read env (GridFTPModule.lseek d 100 SEEK_SET).desc 10).trace ∧
        Event.read_stream .main 10 ∉
          (GridFTPModule.read env (GridFTPModule.lseek d 100 SEEK_SET).desc 10).trace ∧
        (GridFTPModule.read env (GridFTPModule.lseek d 100 SEEK_SET).desc 10).desc.stream =
          some { offset := 0, eof := false }) := by
  obtain ⟨r1, r2, r3, r4⟩ := internal_pread_steps env desc count offset
  obtain ⟨w1, w2, w3, w4⟩ := internal_pwrite_steps env desc count offset
  refine ⟨internal_pread_desc env desc count offset,
    internal_pwrite_desc env desc count offset,
    range_end_eq offset count, ?_, ?_, ?_, ?_, ?_, ?_⟩
  · intro c hst
    simp only [GridFTPModule.pread, GridFTPModule.pwrite, r1 c hst, w1 c hst, and_self]
  · intro c hst htr
    simp only [GridFTPModule.pread, GridFTPModule.pwrite, r2 c hst htr, w2 c hst htr,
      and_self]
  · intro n eof hst htr
    cases hco : env.completion with
    | none =>
      simp only [GridFTPModule.pread, GridFTPModule.pwrite, r4 n eof hst htr hco,
        w4 n eof hst htr hco, and_self]
    | some c =>
      simp only [GridFTPModule.pread, GridFTPModule.pwrite, r3 n eof c hst htr hco,
        w3 n eof c hst htr hco, and_self]
  · intro h
    refine ⟨(read_fallback_stream env desc count h).1, ?_, ?_⟩ <;>
      rw [read_fallback env desc count h, GridFTPModule.pread] <;>
      split <;> rename_i heq <;> simp [heq]
  · intro h
    refine ⟨(write_fallback_stream env desc count h).1, ?_, ?_⟩ <;>
      rw [write_fallback env desc count h, GridFTPModule.pwrite] <;>
      split <;> rename_i heq <;> simp [heq]
  · intro env0 url hex hst
    rw [open_read_only_present env0 url O_RDONLY rfl hex hst]
    refine ⟨_, rfl, rfl, ?_⟩
    have hseek : (GridFTPModule.lseek
        { handler := { url := url }, request := GridFTPRequestState.new,
          stream := some GridFTPStreamState.new, open_flags := O_RDONLY,
          current_offset := 0, url := url } 100 SEEK_SET).desc =
        { handler := { url := url }, request := GridFTPRequestState.new,
          stream := some GridFTPStreamState.new, open_flags := O_RDONLY,
          current_offset := 100, url := url } := rfl
    rw [hseek]
    have hc : ¬ ∃ s, (GridFTPFileDesc.mk { url := url } GridFTPRequestState.new
          (some GridFTPStreamState.new) O_RDONLY 100 url).stream = some s ∧
        (GridFTPFileDesc.mk { url := url } GridFTPRequestState.new
          (some GridFTPStreamState.new) O_RDONLY 100 url).current_offset = s.offset ∧
        is_read_only (GridFTPFileDesc.mk { url := url } GridFTPRequestState.new
          (some GridFTPStreamState.new) O_RDONLY 100 url).open_flags = true := by
      rintro ⟨s, hs, hoff, -⟩
      simp only [Option.some.injEq] at hs
      subst hs
      simp [GridFTPStreamState.new] at hoff
    obtain ⟨rest, hrest, hall⟩ := internal_pread_trace env
      (GridFTPFileDesc.mk { url := url } GridFTPRequestState.new
          (some GridFTPStreamState.new) O_RDONLY 100 url) 10 100
    have tr : (GridFTPModule.read env (GridFTPFileDesc.mk { url := url }
          GridFTPRequestState.new (some GridFTPStreamState.new) O_RDONLY 100 url) 10).trace =
        (gridftp_rw_internal_pread env (GridFTPFileDesc.mk { url := url }
          GridFTPRequestState.new (some GridFTPStreamState.new) O_RDONLY 100 url)
          10 100).trace := by
      rw [read_fallback env _ 10 hc]
      split <;> rfl
    rw [(read_fallback_stream env _ 10 hc).1, tr, hrest]
    refine ⟨?_, ?_, rfl⟩
    · have : range_end 100 10 = 110 := by decide
      rw [this]
      simp
    · intro hmem
      simp only [List.mem_cons, reduceCtorEq, false_or] at hmem
      rcases hall _ hmem with h | h <;> cases h

/-- Witness of C6 as amended: a `pread` of 10 bytes at offset 100 that moves 4
bytes, the read-only descriptor seeked to 100 where `read` takes the positional
route, and the scenario from `open`. -/
theorem positioned_frame_witness :
    range_end 100 10 = 110 ∧
    (GridFTPModule.pread (env_moving 4) (sample_desc O_RDONLY) 10 100).ret = .ok 4 ∧
    (GridFTPModule.pread (env_moving 4) (sample_desc O_RDONLY) 10 100).trace =
      [Event.session_new "gsiftp://host/f",
       Event.client_partial_get "gsiftp://host/f" 100 110,
       Event.read_stream .scratch 10, Event.wait .INTERNAL_PREAD] ∧
    (GridFTPModule.read (env_moving 4)
        (GridFTPModule.lseek (sample_desc O_RDONLY) 100 SEEK_SET).desc 10).desc.stream =
      some { offset := 0, eof := false } ∧
    (∃ d, (GridFTPModule.open (env_moving 4) "gsiftp://host/f" O_RDONLY).ret = .ok d ∧
      (GridFTPModule.read (env_moving 4) (GridFTPModule.lseek d 100 SEEK_SET).desc 10).desc.stream =
        some { offset := 0, eof := false }) := by
  have key := positioned_frame (env_moving 4) (sample_desc O_RDONLY) 10 100
  have hend : range_end 100 10 = 110 := (key.2.2.1 (by decide) (by decide)).trans (by decide)
  refine ⟨hend, ?_, ?_, ?_, ?_⟩
  · exact (key.2.2.2.2.2.1 4 false rfl rfl).1
  · have h := (key.2.2.2.2.2.1 4 false rfl rfl).2.1
    rw [hend] at h
    exact h
  · refine ((positioned_frame (env_moving 4)
      (GridFTPModule.lseek (sample_desc O_RDONLY) 100 SEEK_SET).desc 10 0).2.2.2.2.2.2.1 ?_).1.trans
        rfl
    rintro ⟨s, hs, hoff, -⟩
    have hs1 : s = GridFTPStreamState.new := (Option.some.inj hs).symm
    subst hs1
    exact absurd hoff (by decide)
  · obtain ⟨d, h1, -, -, -, h2⟩ := key.2.2.2.2.2.2.2.2 (env_moving 4) "gsiftp://host/f" rfl rfl
    exact ⟨d, h1, h2⟩

/-- C6 refuted as stated: the end of the range is not `offset + count` for every
count and offset. A `pread` of 10 bytes at offset `2 ^ 63 - 1` starts a partial GET
whose end is `-9223372036854775799`, and a `pwrite` of `2 ^ 64 - 1` bytes at offset
5 starts a partial PUT whose end is 4, because the sum is formed in unsigned
64-bit arithmetic. -/
theorem positioned_range_end_wraps :
    (GridFTPModule.pread (env_moving 10) (sample_desc O_RDONLY) 10 9223372036854775807).trace =
      [Event.session_new "gsiftp://host/f",
       Event.client_partial_get "gsiftp://host/f" 9223372036854775807 (-9223372036854775799),
       Event.read_stream .scratch 10, Event.wait .INTERNAL_PREAD] ∧
    Event.client_partial_get "gsiftp://host/f" 9223372036854775807
        (9223372036854775807 + 10) ∉
      (GridFTPModule.pread (env_moving 10) (sample_desc O_RDONLY) 10 9223372036854775807).trace ∧
    (GridFTPModule.pwrite (env_moving 10) (sample_desc O_WRONLY) 18446744073709551615 5).trace =
      [Event.session_new "gsiftp://host/f",
       Event.client_partial_put "gsiftp://host/f" 5 4,
       Event.write_stream .scratch 18446744073709551615 false,
       Event.wait .INTERNAL_PWRITE] ∧
    Event.client_partial_put "gsiftp://host/f" 5 (5 + 18446744073709551615) ∉
      (GridFTPModule.pwrite (env_moving 10) (sample_desc O_WRONLY) 18446744073709551615 5).trace := by
  have e1 : range_end 9223372036854775807 10 = -9223372036854775799 := by decide
  have e2 : range_end 5 18446744073709551615 = 4 := by decide
  have t1 : (GridFTPModule.pread (env_moving 10) (sample_desc O_RDONLY) 10
      9223372036854775807).trace =
      [Event.session_new "gsiftp://host/f",
       Event.client_partial_get "gsiftp://host/f" 9223372036854775807
         (range_end 9223372036854775807 10),
       Event.read_stream .scratch 10, Event.wait .INTERNAL_PREAD] := rfl
  have t2 : (GridFTPModule.pwrite (env_moving 10) (sample_desc O_WRONLY)
      18446744073709551615 5).trace =
      [Event.session_new "gsiftp://host/f",
       Event.client_partial_put "gsiftp://host/f" 5 (range_end 5 18446744073709551615),
       Event.write_stream .scratch 18446744073709551615 false,
       Event.wait .INTERNAL_PWRITE] := rfl
  rw [t1, t2, e1, e2]
  refine ⟨rfl, ?_, rfl, ?_⟩
  · simp
  · simp

/-! ## Routing of `read` and `write` by the open flags -/

theorem is_read_only_accmode (flag : Nat) :
    is_read_only flag = true ↔ flag &&& O_ACCMODE = O_RDONLY :=
  is_read_only_iff flag

theorem wronly_bit_of_accmode (flag : Nat) :
    flag &&& O_WRONLY = (flag &&& O_ACCMODE) &&& O_WRONLY := by
  rw [Nat.and_assoc]
  rfl

/-- C1, as amended: `read` is served from the descriptor's live stream (the one
operation it issues is a stream read on the main stream) if and only if a stream
state is present, the cursor equals the stream's offset and the open flags are
read-only, that is their access mode is `O_RDONLY`; in every other case it is
`gridftp_rw_internal_pread` at the current cursor. For `write`, on every flags
value other than read-only flags that carry `O_CREAT`, the live stream is used if
and only if a stream state is present, the cursor equals the stream's offset and
the flags have the `O_WRONLY` bit or `O_CREAT` set; otherwise it is
`gridftp_rw_internal_pwrite` at the current cursor. So with access mode
`O_WRONLY`, and also with `O_RDWR` together with `O_CREAT`, a `write` on an aligned
stream is served from it. -/
theorem read_write_routing (env : Env) (desc : GridFTPFileDesc) (count : Nat) :
    ((GridFTPModule.read env desc count).trace = [Event.read_stream .main count] ↔
      ∃ s, desc.stream = some s ∧ desc.current_offset = s.offset ∧
        desc.open_flags &&& O_ACCMODE = O_RDONLY) ∧
    (Event.client_partial_get desc.url desc.current_offset
          (range_end desc.current_offset count) ∈
        (GridFTPModule.read env desc count).trace ↔
      ¬ ∃ s, desc.stream = some s ∧ desc.current_offset = s.offset ∧
        desc.open_flags &&& O_ACCMODE = O_RDONLY) ∧
    ((∃ s, desc.stream = some s ∧ desc.current_offset = s.offset ∧
        desc.open_flags &&& O_ACCMODE = O_RDONLY) ∨
      ((GridFTPModule.read env desc count).ret =
          (gridftp_rw_internal_pread env desc count desc.current_offset).ret ∧
        (GridFTPModule.read env desc count).trace =
          (gridftp_rw_internal_pread env desc count desc.current_offset).trace)) ∧
    (¬ (desc.open_flags &&& O_ACCMODE = O_RDONLY ∧ desc.open_flags &&& O_CREAT ≠ 0) →
      ((GridFTPModule.write env desc count).trace = [Event.write_stream .main count false] ↔
        ∃ s, desc.stream = some s ∧ desc.current_offset = s.offset ∧
          (desc.open_flags &&& O_WRONLY ≠ 0 ∨ desc.open_flags &&& O_CREAT ≠ 0)) ∧
      (Event.client_partial_put desc.url desc.current_offset
            (range_end desc.current_offset count) ∈
          (GridFTPModule.write env desc count).trace ↔
        ¬ ∃ s, desc.stream = some s ∧ desc.current_offset = s.offset ∧
          (desc.open_flags &&& O_WRONLY ≠ 0 ∨ desc.open_flags &&& O_CREAT ≠ 0)) ∧
      ((∃ s, desc.stream = some s ∧ desc.current_offset = s.offset ∧
          (desc.open_flags &&& O_WRONLY ≠ 0 ∨ desc.open_flags &&& O_CREAT ≠ 0)) ∨
        ((GridFTPModule.write env desc count).ret =
            (gridftp_rw_internal_pwrite env desc count desc.current_offset).ret ∧
          (GridFTPModule.write env desc count).trace =
            (gridftp_rw_internal_pwrite env desc count desc.current_offset).trace))) ∧
    (desc.open_flags &&& O_ACCMODE = O_WRONLY →
      ((GridFTPModule.write env desc count).trace = [Event.write_stream .main count false] ↔
        ∃ s, desc.stream = some s ∧ desc.current_offset = s.offset)) ∧
    (desc.open_flags &&& O_ACCMODE = O_RDWR → desc.open_flags &&& O_CREAT ≠ 0 →
      ((GridFTPModule.write env desc count).trace = [Event.write_stream .main count false] ↔
        ∃ s, desc.stream = some s ∧ desc.current_offset = s.offset)) ∧
    (desc.open_flags &&& O_ACCMODE = O_RDONLY → desc.open_flags &&& O_CREAT = 0 →
      Event.client_partial_put desc.url desc.current_offset
          (range_end desc.current_offset count) ∈
        (GridFTPModule.write env desc count).trace) := by
  have key := routing_by_predicates env desc count
  simp only [is_read_only_accmode, is_write_only_iff] at key
  obtain ⟨r1, r2, r3, w1, w2, w3⟩ := key
  refine ⟨r1, r2, r3, fun _ => ⟨w1, w2, w3⟩, ?_, ?_, ?_⟩
  · intro hacc
    rw [w1]
    have hbit : desc.open_flags &&& O_WRONLY ≠ 0 := by
      rw [wronly_bit_of_accmode, hacc]
      decide
    constructor
    · rintro ⟨s, hs, hoff, -⟩
      exact ⟨s, hs, hoff⟩
    · rintro ⟨s, hs, hoff⟩
      exact ⟨s, hs, hoff, Or.inl hbit⟩
  · intro hacc hcreat
    rw [w1]
    constructor
    · rintro ⟨s, hs, hoff, -⟩
      exact ⟨s, hs, hoff⟩
    · rintro ⟨s, hs, hoff⟩
      exact ⟨s, hs, hoff, Or.inr hcreat⟩
  · intro hacc hcreat
    rw [w2]
    rintro ⟨s, -, -, hbits⟩
    rcases hbits with hb | hb
    · apply hb
      rw [wronly_bit_of_accmode, hacc]
      rfl
    · exact hb hcreat

/-- Witness of C1 as amended: a `write` on an aligned `O_WRONLY` descriptor is
served from the live stream, and on an aligned `O_RDONLY` descriptor it goes to
the positioned sub-operation at cursor 0. -/
theorem read_write_routing_witness :
    ¬ (O_WRONLY &&& O_ACCMODE = O_RDONLY ∧ O_WRONLY &&& O_CREAT ≠ 0) ∧
    (GridFTPModule.write (env_moving 2) (sample_desc O_WRONLY) 2).trace =
      [Event.write_stream .main 2 false] ∧
    Event.client_partial_put "gsiftp://host/f" 0 (range_end 0 2) ∈
      (GridFTPModule.write (env_moving 2) (sample_desc O_RDONLY) 2).trace :=
  ⟨by decide,
    ((read_write_routing (env_moving 2) (sample_desc O_WRONLY) 2).2.2.2.1 (by decide)).1.2
      ⟨GridFTPStreamState.new, rfl, rfl, Or.inl (by decide)⟩,
    (read_write_routing (env_moving 2) (sample_desc O_RDONLY) 2).2.2.2.2.2.2 rfl rfl⟩

/-- C1 refuted as stated: on the descriptor `open` hands back for
`O_RDWR | O_CREAT`, whose access mode is `O_RDWR` and not `O_WRONLY`, a stream
state is present, the cursor equals its offset, and `write` is served from the
live stream without any positioned sub-operation. -/
theorem write_live_on_rdwr_creat :
    (O_RDWR ||| O_CREAT) &&& O_ACCMODE = O_RDWR ∧
    (O_RDWR ||| O_CREAT) &&& O_ACCMODE ≠ O_WRONLY ∧
    (GridFTPModule.open (env_moving 2) "gsiftp://host/f" (O_RDWR ||| O_CREAT)).ret =
      .ok (sample_desc (O_RDWR ||| O_CREAT)) ∧
    (sample_desc (O_RDWR ||| O_CREAT)).stream = some { offset := 0, eof := false } ∧
    (sample_desc (O_RDWR ||| O_CREAT)).current_offset = 0 ∧
    (GridFTPModule.write (env_moving 2) (sample_desc (O_RDWR ||| O_CREAT)) 2).trace =
      [Event.write_stream .main 2 false] ∧
    (∀ e ∈ (GridFTPModule.write (env_moving 2) (sample_desc (O_RDWR ||| O_CREAT)) 2).trace,
      e.starts_transfer = false) := by
  refine ⟨rfl, by decide, rfl, rfl, rfl, rfl, ?_⟩
  intro e he
  have ht : (GridFTPModule.write (env_moving 2) (sample_desc (O_RDWR ||| O_CREAT)) 2).trace =
      [Event.write_stream .main 2 false] := rfl
  rw [ht, List.mem_singleton] at he
  subst he
  rfl
